import Mathlib

/-!
Verification of the media-bridge resumable pipeline coordinator.

Shallow embedding of the python sources:
  * src/media_bridge/error_handler.py  (retry policy `with_retry`)
  * src/media_bridge/status.py         (MediaStatus / UploadStatus enums)
  * src/media_bridge/state_manager.py  (sqlite-backed state store)
  * src/media_bridge/downloader.py     (pipeline coordinator `download_videos`,
                                        `_download_video`, progress hook)

Conventions: python floats for delays are modelled as rationals; timestamps are
abstract `Nat` ticks supplied by the caller (one tick per store call); python
`None` is `Option.none`; python string truthiness (`if s:`) is
`Option.isSome && not String.isEmpty`.
-/

/- ===================== error_handler.py : with_retry ===================== -/

/-- Outcome of one invocation of the operation wrapped by `with_retry`:
it returns a value, raises an exception whose type is in the
`retryable_exceptions` tuple, or raises any other exception. -/
inductive OpOutcome (α ε : Type) where
  | ok (v : α)
  | retryableExc (e : ε)
  | otherExc (e : ε)
deriving DecidableEq

/-- Observable events of one call of the wrapper returned by `with_retry`:
an invocation of the wrapped operation, a call of the `on_retry` callback
with the exception and the 1-based number of the attempt that just failed,
or a `time.sleep(delay)`. -/
inductive RetryEvent (ε : Type) where
  | invokeOp
  | onRetryCall (e : ε) (attemptNumber : Nat)
  | sleepFor (d : ℚ)
deriving DecidableEq

/-- Result of a call of the wrapper: a returned value, a raised exception, or
the degenerate `raise last_exception` with `last_exception = None` that the
code reaches when `max_attempts = 0`. -/
inductive RetryOutcome (α ε : Type) where
  | value (v : α)
  | raised (e : ε)
  | raisedNone
deriving DecidableEq

/-- Delay update performed after each sleep:
`delay = min(delay * backoff_factor, max_delay)`. -/
def nextDelay (backoffFactor maxDelay d : ℚ) : ℚ :=
  min (d * backoffFactor) maxDelay

/-- The delay slept before the (n+1)-st invocation: `delayAt b m d0 0 = d0`,
then each later sleep uses the updated delay. -/
def delayAt (backoffFactor maxDelay d0 : ℚ) : Nat → ℚ
  | 0 => d0
  | n + 1 => delayAt backoffFactor maxDelay (nextDelay backoffFactor maxDelay d0) n

/-- The retry loop of `with_retry` (error_handler.py lines 135-165), written as
recursion on `remaining = max_attempts - attempt`.  `behave n` is the outcome
of the (n+1)-st invocation of the wrapped operation.  The python loop body:
on a retryable exception with `attempt < max_attempts - 1` (here:
`remaining ≥ 2`) it calls `on_retry(e, attempt + 1)` if supplied, sleeps
`delay`, updates the delay and continues; on the last attempt it falls out of
the loop and re-raises the last exception; on a non-retryable exception it
re-raises immediately. -/
def retryLoop {α ε : Type} (behave : Nat → OpOutcome α ε) (hasOnRetry : Bool)
    (backoffFactor maxDelay : ℚ) :
    Nat → Nat → ℚ → RetryOutcome α ε × List (RetryEvent ε)
  | 0, _, _ => (.raisedNone, [])
  | 1, attempt, _ =>
    match behave attempt with
    | .ok v => (.value v, [.invokeOp])
    | .otherExc e => (.raised e, [.invokeOp])
    | .retryableExc e => (.raised e, [.invokeOp])
  | remaining + 2, attempt, delay =>
    match behave attempt with
    | .ok v => (.value v, [.invokeOp])
    | .otherExc e => (.raised e, [.invokeOp])
    | .retryableExc e =>
      let rest := retryLoop behave hasOnRetry backoffFactor maxDelay
        (remaining + 1) (attempt + 1) (nextDelay backoffFactor maxDelay delay)
      (rest.1,
        .invokeOp ::
          ((if hasOnRetry then [.onRetryCall e (attempt + 1)] else []) ++
            .sleepFor delay :: rest.2))

/-- One call of the wrapper produced by
`with_retry(func, max_attempts, initial_delay, max_delay, backoff_factor,
retryable_exceptions, on_retry)`. -/
def with_retry {α ε : Type} (behave : Nat → OpOutcome α ε) (maxAttempts : Nat)
    (initialDelay maxDelay backoffFactor : ℚ) (hasOnRetry : Bool) :
    RetryOutcome α ε × List (RetryEvent ε) :=
  retryLoop behave hasOnRetry backoffFactor maxDelay maxAttempts 0 initialDelay

/-- The block of events of one failed retryable attempt followed by the retry
bookkeeping: invoke, the optional `on_retry` call, the sleep. -/
def retrySeg {ε : Type} (hasOnRetry : Bool) (backoffFactor maxDelay d0 : ℚ)
    (es : Nat → ε) (attempt : Nat) (i : Nat) : List (RetryEvent ε) :=
  .invokeOp ::
    ((if hasOnRetry then [.onRetryCall (es (attempt + i)) (attempt + i + 1)] else []) ++
      [.sleepFor (delayAt backoffFactor maxDelay d0 i)])

/-- Recognizer for invocation events. -/
def isInvokeEv {ε : Type} : RetryEvent ε → Bool
  | .invokeOp => true
  | _ => false

/-- Number of invocations of the wrapped operation recorded in a trace. -/
def invocationCount {ε : Type} (t : List (RetryEvent ε)) : Nat :=
  (t.filter isInvokeEv).length

/- ===================== status.py : MediaStatus / UploadStatus ===================== -/

/-- The MediaStatus enum of status.py; `value` below is the stored string. -/
inductive MediaStatus where
  | pendingDownload
  | downloading
  | downloaded
  | uploadPending
  | completed
  | failedDownload
  | failedUpload
deriving DecidableEq

/-- Stored string of each MediaStatus member (its python `value`). -/
def MediaStatus.value : MediaStatus → String
  | .pendingDownload => "PENDING_DOWNLOAD"
  | .downloading => "DOWNLOADING"
  | .downloaded => "DOWNLOADED"
  | .uploadPending => "UPLOAD_PENDING"
  | .completed => "COMPLETED"
  | .failedDownload => "FAILED_DOWNLOAD"
  | .failedUpload => "FAILED_UPLOAD"

/-- `MediaStatus.from_str`: `None` or the empty string give `None`; an
unrecognized value gives `None` (the `except ValueError` branch). -/
def MediaStatus.fromStr : Option String → Option MediaStatus
  | none => none
  | some s =>
    if s = "" then none
    else if s = "PENDING_DOWNLOAD" then some .pendingDownload
    else if s = "DOWNLOADING" then some .downloading
    else if s = "DOWNLOADED" then some .downloaded
    else if s = "UPLOAD_PENDING" then some .uploadPending
    else if s = "COMPLETED" then some .completed
    else if s = "FAILED_DOWNLOAD" then some .failedDownload
    else if s = "FAILED_UPLOAD" then some .failedUpload
    else none

/-- The UploadStatus enum of status.py. -/
inductive UploadStatus where
  | pending
  | success
  | failed
deriving DecidableEq

/-- Stored string of each UploadStatus member. -/
def UploadStatus.value : UploadStatus → String
  | .pending => "PENDING"
  | .success => "SUCCESS"
  | .failed => "FAILED"

/-- `UploadStatus.from_str`, same discipline as `MediaStatus.fromStr`. -/
def UploadStatus.fromStr : Option String → Option UploadStatus
  | none => none
  | some s =>
    if s = "" then none
    else if s = "PENDING" then some .pending
    else if s = "SUCCESS" then some .success
    else if s = "FAILED" then some .failed
    else none

/- ===================== state_manager.py : the state store ===================== -/

/-- Python truthiness of an optional string (`if error_message:` etc.):
true exactly when present and nonempty. -/
def strTruthy : Option String → Bool
  | none => false
  | some s => !s.isEmpty

/-- Keyed association list lookup (first match), modelling a primary-key read. -/
def lookupBy {κ β : Type} [DecidableEq κ] (k : κ) : List (κ × β) → Option β
  | [] => none
  | (k2, v) :: rest => if k = k2 then some v else lookupBy k rest

/-- Insert-or-update at a key, modelling `INSERT ... ON CONFLICT DO UPDATE`:
the function receives the previous row if one exists. -/
def upsertBy {κ β : Type} [DecidableEq κ] (k : κ) (f : Option β → β) :
    List (κ × β) → List (κ × β)
  | [] => [(k, f none)]
  | (k2, v) :: rest =>
    if k = k2 then (k, f (some v)) :: rest else (k2, v) :: upsertBy k f rest

/-- Row of the `media_items` table (state_manager.py `_create_tables`).
Timestamps are abstract `Nat` ticks. -/
structure MediaItemRow where
  title : Option String
  download_timestamp : Option Nat
  local_path : Option String
  status : String
  last_attempt_timestamp : Option Nat
  yt_dlp_id : Option String
  error_message : Option String
  retry_count : Nat
  last_error_timestamp : Option Nat
  metadata : Option String
  created_at : Nat
  updated_at : Nat
deriving DecidableEq

/-- Row of the `upload_status` table, keyed by (video_url, uploader_id). -/
structure UploadRow where
  uploaded_id : Option String
  upload_timestamp : Option Nat
  status : String
  retry_count : Nat
  last_error_timestamp : Option Nat
  metadata : Option String
  created_at : Nat
  updated_at : Nat
deriving DecidableEq

/-- The StateManager: an sqlite connection that may have failed (`conn = false`
models `self._conn = None`) and the two tables. -/
structure StateManager where
  conn : Bool
  media_items : List (String × MediaItemRow)
  upload_status : List ((String × String) × UploadRow)
deriving DecidableEq

/-- `add_or_update_media_item` (state_manager.py lines 99-169).  With no
connection it logs a warning and returns with no effect.  Otherwise it reads
the current retry_count, adds 1 exactly when the call carries a truthy
error_message, and runs the INSERT ... ON CONFLICT statement:
title/local_path/yt_dlp_id merge by COALESCE, status always overwrites,
error_message and metadata always overwrite (in sqlite `CASE x WHEN NULL`
never matches, so the ELSE arm always runs), download_timestamp is kept
unless the incoming status is DOWNLOADED, and last_error_timestamp is set to
the new last_attempt_timestamp (same always-ELSE behaviour). -/
def add_or_update_media_item (sm : StateManager) (now : Nat) (video_url : String)
    (title : Option String) (local_path : Option String) (status : MediaStatus)
    (yt_dlp_id : Option String) (error_message : Option String)
    (metadata : Option String) : StateManager :=
  if sm.conn = false then sm
  else
    { sm with
      media_items := upsertBy video_url (fun prev =>
        let prevRetry : Nat := match prev with
          | some r => r.retry_count
          | none => 0
        let retry_count : Nat :=
          if strTruthy error_message then prevRetry + 1 else prevRetry
        let exDlTs : Option Nat :=
          if status = MediaStatus.downloaded then some now else none
        match prev with
        | none =>
          { title := title
            download_timestamp := exDlTs
            local_path := local_path
            status := status.value
            last_attempt_timestamp := some now
            yt_dlp_id := yt_dlp_id
            error_message := error_message
            retry_count := retry_count
            last_error_timestamp := if strTruthy error_message then some now else none
            metadata := metadata
            created_at := now
            updated_at := now }
        | some old =>
          { title := title.orElse (fun _ => old.title)
            download_timestamp :=
              if status.value = "DOWNLOADED" then
                (exDlTs.orElse (fun _ => old.download_timestamp))
              else old.download_timestamp
            local_path := local_path.orElse (fun _ => old.local_path)
            status := status.value
            last_attempt_timestamp := some now
            yt_dlp_id := yt_dlp_id.orElse (fun _ => old.yt_dlp_id)
            error_message := error_message
            retry_count := retry_count
            last_error_timestamp := some now
            metadata := metadata
            created_at := old.created_at
            updated_at := now }) sm.media_items }

/-- `update_upload_status` (state_manager.py lines 171-235).  With no
connection it logs and returns.  With a connection, the ON CONFLICT clause of
its INSERT statement reads `excluded.error_message`, but the `upload_status`
table created in `_create_tables` has no error_message column, so sqlite
fails to prepare the statement and raises sqlite3.OperationalError
(verified: "no such column: excluded.error_message") before any row is
inserted or updated; the surrounding `except sqlite3.Error` block logs the
error and returns.  Every call therefore leaves the store unchanged. -/
def update_upload_status (sm : StateManager) (_now : Nat)
    (_video_url _uploader_id : String) (_status : UploadStatus)
    (_uploaded_id : Option String) (_error_message : Option String)
    (_metadata : Option String) : StateManager :=
  if sm.conn = false then sm
  else sm

/-- The merge the SQL text of `update_upload_status` describes, i.e. what one
call would commit if the statement prepared (the discipline the spec states
for `upsert_upload_record`): status/uploaded_id/upload_timestamp always
overwrite, retry_count is the freshly computed value (previous + 1 exactly
when the call carries a truthy error_message), last_error_timestamp and
metadata take the always-ELSE arms of their CASE expressions.  Kept separate
from `update_upload_status`, which models what the code actually does. -/
def update_upload_status_statement (sm : StateManager) (now : Nat)
    (video_url uploader_id : String) (status : UploadStatus)
    (uploaded_id : Option String) (error_message : Option String)
    (metadata : Option String) : StateManager :=
  if sm.conn = false then sm
  else
    { sm with
      upload_status := upsertBy (video_url, uploader_id) (fun prev =>
        let prevRetry : Nat := match prev with
          | some r => r.retry_count
          | none => 0
        let retry_count : Nat :=
          if strTruthy error_message then prevRetry + 1 else prevRetry
        let upTs : Option Nat :=
          if status = UploadStatus.success then some now else none
        match prev with
        | none =>
          { uploaded_id := uploaded_id
            upload_timestamp := upTs
            status := status.value
            retry_count := retry_count
            last_error_timestamp := if strTruthy error_message then some now else none
            metadata := metadata
            created_at := now
            updated_at := now }
        | some old =>
          { uploaded_id := uploaded_id
            upload_timestamp := upTs
            status := status.value
            retry_count := retry_count
            last_error_timestamp := some now
            metadata := metadata
            created_at := old.created_at
            updated_at := now }) sm.upload_status }

/-- Per-uploader entry of the `uploads` dict that `get_media_item_details`
builds from the `upload_status` rows of a video. -/
structure UploadDetails where
  status : Option UploadStatus
  id : Option String
  retry_count : Nat
deriving DecidableEq

/-- The dict returned by `get_media_item_details` (the fields the claims
use; the raw row text is converted by the `from_str` helpers). -/
structure MediaItemDetails where
  status : Option MediaStatus
  local_path : Option String
  title : Option String
  error_message : Option String
  retry_count : Nat
  uploads : List (String × UploadDetails)
deriving DecidableEq

/-- Conversion of one upload_status row into its `uploads` dict entry. -/
def uploadDetailsOf (r : UploadRow) : UploadDetails :=
  { status := UploadStatus.fromStr (some r.status)
    id := r.uploaded_id
    retry_count := r.retry_count }

/-- The `uploads` dict: one entry per upload_status row of this video_url,
keyed by uploader_id. -/
def uploadsFor (sm : StateManager) (video_url : String) :
    List (String × UploadDetails) :=
  sm.upload_status.filterMap (fun e =>
    if e.1.1 = video_url then some (e.1.2, uploadDetailsOf e.2) else none)

/-- `get_media_item_details` (state_manager.py lines 237-275): `None` with no
connection or for an absent row; otherwise the row with its status decoded by
`MediaStatus.from_str` and its `uploads` dict. -/
def get_media_item_details (sm : StateManager) (video_url : String) :
    Option MediaItemDetails :=
  if sm.conn = false then none
  else
    match lookupBy video_url sm.media_items with
    | none => none
    | some row =>
      some
        { status := MediaStatus.fromStr (some row.status)
          local_path := row.local_path
          title := row.title
          error_message := row.error_message
          retry_count := row.retry_count
          uploads := uploadsFor sm video_url }

/-- `cleanup_old_items` (state_manager.py lines 319-340): 0 with no
connection; otherwise deletes COMPLETED / FAILED_DOWNLOAD items created
before the cutoff and returns the number removed.  Tick arithmetic stands in
for `now - timedelta(days=days)`; sqlite foreign-key enforcement is off by
default, so the upload_status rows are not cascaded. -/
def cleanup_old_items (sm : StateManager) (now days : Nat) : StateManager × Nat :=
  if sm.conn = false then (sm, 0)
  else
    let cutoff := now - days
    let doomed := fun (e : String × MediaItemRow) =>
      e.2.created_at < cutoff &&
        (e.2.status = "COMPLETED" || e.2.status = "FAILED_DOWNLOAD")
    ({ sm with media_items := sm.media_items.filter (fun e => !(doomed e)) },
      (sm.media_items.filter doomed).length)

/-- `is_video_processed_for_uploaders` (state_manager.py lines 342-358):
false with no connection or an empty uploader list; false when the item row
or its uploads dict is absent/empty; otherwise true exactly when every given
uploader_id has an upload record decoded as SUCCESS. -/
def is_video_processed_for_uploaders (sm : StateManager) (video_url : String)
    (uploader_ids : List String) : Bool :=
  if sm.conn = false || uploader_ids.isEmpty then false
  else
    match get_media_item_details sm video_url with
    | none => false
    | some details =>
      if details.uploads.isEmpty then false
      else
        uploader_ids.all (fun uid =>
          match lookupBy uid details.uploads with
          | some u => u.status = some UploadStatus.success
          | none => false)

/-- `get_local_path` (state_manager.py lines 379-385): the recorded
local_path when present and truthy. -/
def get_local_path (sm : StateManager) (video_url : String) : Option String :=
  if sm.conn = false then none
  else
    match get_media_item_details sm video_url with
    | none => none
    | some d =>
      match d.local_path with
      | some p => if p.isEmpty then none else some p
      | none => none

/-- `update_item_status_if_all_uploads_done` (state_manager.py lines
387-432), the reconcile step.  With no uploaders enabled it unconditionally
writes COMPLETED.  Otherwise: all-SUCCESS writes COMPLETED; else, when the
item is not in a FAILED_* state and its status is DOWNLOADED and some enabled
uploader has a record decoded as PENDING or FAILED, it writes UPLOAD_PENDING;
in every other case it writes nothing. -/
def update_item_status_if_all_uploads_done (sm : StateManager) (now : Nat)
    (video_url : String) (enabled_uploader_ids : List String) : StateManager :=
  if sm.conn = false then sm
  else if enabled_uploader_ids.isEmpty then
    add_or_update_media_item sm now video_url none none MediaStatus.completed
      none none none
  else if is_video_processed_for_uploaders sm video_url enabled_uploader_ids then
    add_or_update_media_item sm now video_url none none MediaStatus.completed
      none none none
  else
    match get_media_item_details sm video_url with
    | none => sm
    | some details =>
      if details.status ≠ some MediaStatus.failedDownload ∧
          details.status ≠ some MediaStatus.failedUpload then
        if details.status = some MediaStatus.downloaded then
          if enabled_uploader_ids.any (fun uid =>
              match lookupBy uid details.uploads with
              | some u =>
                u.status = some UploadStatus.pending ||
                  u.status = some UploadStatus.failed
              | none => false) then
            add_or_update_media_item sm now video_url none none
              MediaStatus.uploadPending none none none
          else sm
        else sm
      else sm

/- ===================== downloader.py : engine attempt model ===================== -/

/-- Exceptions `_download_video` raises; `str` below is the python message. -/
inductive PyExc where
  | resourceNotFound (msg : String)
  | validation (msg : String)
  | network (msg : String)
deriving DecidableEq

/-- Bool test that one character list starts with another. -/
def charsStartWith : List Char → List Char → Bool
  | [], _ => true
  | _ :: _, [] => false
  | a :: as, b :: bs => a == b && charsStartWith as bs

/-- Bool test that one character list occurs inside another. -/
def charsInside (needle : List Char) : List Char → Bool
  | [] => needle.isEmpty
  | b :: bs => charsStartWith needle (b :: bs) || charsInside needle bs

/-- Python `needle in haystack`. -/
def strContains (haystack needle : String) : Bool :=
  charsInside needle.toList haystack.toList

/-- Message of an exception (python `str(e)`). -/
def PyExc.str : PyExc → String
  | .resourceNotFound m => m
  | .validation m => m
  | .network m => m

/-- The except-branch of the info-extraction block of `_download_video`
(downloader.py lines 135-141): message sniffing turns the raised exception
into ResourceNotFoundError / ValidationError / NetworkError. -/
def classifyInfoExc (url msg : String) : PyExc :=
  if strContains msg "Video unavailable" then
    .resourceNotFound ("Video unavailable: " ++ url)
  else if strContains msg "Private video" then
    .validation ("Private video: " ++ url)
  else .network ("Failed to get video info: " ++ msg)

/-- The `except yt_dlp.utils.DownloadError` branch of `_download_video`
(downloader.py lines 157-164). -/
def classifyDownloadErr (url msg : String) : PyExc :=
  if strContains msg "Video unavailable" then
    .resourceNotFound ("Video unavailable: " ++ url)
  else if strContains msg "Private video" then
    .validation ("Private video: " ++ url)
  else .network ("Download failed: " ++ msg)

/-- A terminal event the engine reports through the progress hook
(downloader.py `_make_progress_hook`): `finished` with the final file and the
info-dict fields, or `error` with the error text.  The source url may be
absent from the info dict. -/
inductive HookEvent where
  | finished (video_url : Option String) (path : String)
      (title yt_dlp_id : Option String)
  | errored (video_url : Option String) (title : Option String) (msg : String)
deriving DecidableEq

/-- Effect of one hook callback on the session cache and the store
(downloader.py lines 66-110): `finished` records the path in the session
cache and persists DOWNLOADED with path/title/id; `error` persists
FAILED_DOWNLOAD with the message; with no url in the info dict the state is
left alone. -/
def progressHook (now : Nat) (cache : List (String × String))
    (sm : StateManager) : HookEvent → List (String × String) × StateManager
  | .finished u path title ytid =>
    match u with
    | some url =>
      (upsertBy url (fun _ => path) cache,
        add_or_update_media_item sm now url title (some path)
          MediaStatus.downloaded ytid none none)
    | none => (cache, sm)
  | .errored u title msg =>
    match u with
    | some url =>
      (cache,
        add_or_update_media_item sm now url title none
          MediaStatus.failedDownload none (some msg) none)
    | none => (cache, sm)

/-- Fold of the hook over the events of one `ydl.download` call. -/
def runHooks (now : Nat) : List HookEvent → List (String × String) →
    StateManager → List (String × String) × StateManager
  | [], cache, sm => (cache, sm)
  | ev :: rest, cache, sm =>
    let r := progressHook now cache sm ev
    runHooks now rest r.1 r.2

/-- What `ydl.extract_info(url, download=False)` did: returned an info dict,
returned a falsy value, or raised with some message. -/
inductive ExtractOutcome where
  | okInfo (title yt_dlp_id : Option String)
  | noInfo
  | raisesMsg (msg : String)
deriving DecidableEq

/-- Behaviour of `ydl.download([url])`: the hook events it fires, and an
optional DownloadError message raised after them. -/
structure DownloadPhase where
  hooks : List HookEvent
  raisesMsg : Option String
deriving DecidableEq

/-- State-affecting events of one `_download_video` attempt, in order: the
DOWNLOADING status write, then each terminal report of the engine. -/
inductive DlEvent where
  | writeStatus (status : String)
  | terminalReport (ev : HookEvent)
deriving DecidableEq

/-- Result of the call of one `_download_video` attempt: the returned
optional path, or the raised exception. -/
inductive DlOutcome where
  | ok (path : Option String)
  | raisesExc (e : PyExc)
deriving DecidableEq

/-- Result of one `_download_video` attempt. -/
structure DlResult where
  outcome : DlOutcome
  events : List DlEvent
  cache : List (String × String)
  sm : StateManager
deriving DecidableEq

/-- `_download_video` (downloader.py lines 118-168), one attempt: validate
the url by `extract_info`; on any failure there, classify and raise (the
internal ResourceNotFoundError for a falsy info is re-caught by the same
except block and classified from its own message); otherwise persist
DOWNLOADING with title/id, run the download (each terminal event drives the
progress hook), re-raise a classified DownloadError if the download raised,
else return `get_local_path(url)`. -/
def download_video (sm : StateManager) (cache : List (String × String))
    (now : Nat) (url : String) (extract : ExtractOutcome)
    (phase : DownloadPhase) : DlResult :=
  match extract with
  | .raisesMsg msg =>
    { outcome := .raisesExc (classifyInfoExc url msg), events := [],
      cache := cache, sm := sm }
  | .noInfo =>
    { outcome := .raisesExc (classifyInfoExc url ("Could not find video: " ++ url)),
      events := [], cache := cache, sm := sm }
  | .okInfo title ytid =>
    let sm1 := add_or_update_media_item sm now url title none
      MediaStatus.downloading ytid none none
    let r := runHooks now phase.hooks cache sm1
    let evs := DlEvent.writeStatus "DOWNLOADING" ::
      phase.hooks.map DlEvent.terminalReport
    match phase.raisesMsg with
    | some msg =>
      { outcome := .raisesExc (classifyDownloadErr url msg), events := evs,
        cache := r.1, sm := r.2 }
    | none =>
      { outcome := .ok (get_local_path r.2 url), events := evs,
        cache := r.1, sm := r.2 }

/- ===================== downloader.py : coordinator model ===================== -/

/-- Behaviour of one destination upload call
(`uploader_instance.upload_video`): it returns an id string (the empty
string is falsy and lands in the no-id branch), returns `None`, or raises an
exception with the given class name. -/
inductive UploadBehavior where
  | returnsId (id : String)
  | returnsNone
  | raisesExc (excName : String)
deriving DecidableEq

/-- Coordinator-level events of one pass over a locator: an invocation of the
Download Engine, an invocation of one destination upload (with the local
path passed to it), a call of `update_upload_status` (with the status string
and the uploaded_id argument), and the end-of-item reconcile call. -/
inductive CoordEvent where
  | engineInvoked
  | uploadInvoked (uploader_id : String) (path : String)
  | persistUploadCall (uploader_id : String) (status : String)
      (uploaded_id : Option String)
  | reconcileInvoked
deriving DecidableEq

/-- The fresh per-destination status the loop body re-reads from the store:
`fresh_item_details.get("uploads", {}).get(uploader_id, {}).get("status")`. -/
def freshUploadStatus (sm : StateManager) (url uid : String) : Option UploadStatus :=
  match get_media_item_details sm url with
  | some d =>
    match lookupBy uid d.uploads with
    | some u => u.status
    | none => none
  | none => none

/-- One iteration of the per-destination loop (downloader.py lines 303-381):
re-read the fresh record; skip if already SUCCESS; else persist PENDING,
invoke the upload, and persist SUCCESS + id, FAILED + "FAILED_NO_ID", or
FAILED + an "ERROR: " tag carrying the exception class name, according to the
outcome. -/
def uploadLoopStep (now : Nat) (url path uid : String) (behav : UploadBehavior)
    (sm : StateManager) : StateManager × List CoordEvent :=
  if freshUploadStatus sm url uid = some UploadStatus.success then (sm, [])
  else
    match behav with
    | .returnsId cid =>
      if !cid.isEmpty then
        (update_upload_status
          (update_upload_status sm now url uid UploadStatus.pending none none none)
          now url uid UploadStatus.success (some cid) none none,
          [CoordEvent.persistUploadCall uid "PENDING" none,
            .uploadInvoked uid path,
            .persistUploadCall uid "SUCCESS" (some cid)])
      else
        (update_upload_status
          (update_upload_status sm now url uid UploadStatus.pending none none none)
          now url uid UploadStatus.failed (some "FAILED_NO_ID") none none,
          [CoordEvent.persistUploadCall uid "PENDING" none,
            .uploadInvoked uid path,
            .persistUploadCall uid "FAILED" (some "FAILED_NO_ID")])
    | .returnsNone =>
      (update_upload_status
        (update_upload_status sm now url uid UploadStatus.pending none none none)
        now url uid UploadStatus.failed (some "FAILED_NO_ID") none none,
        [CoordEvent.persistUploadCall uid "PENDING" none,
          .uploadInvoked uid path,
          .persistUploadCall uid "FAILED" (some "FAILED_NO_ID")])
    | .raisesExc n =>
      (update_upload_status
        (update_upload_status sm now url uid UploadStatus.pending none none none)
        now url uid UploadStatus.failed (some ("ERROR: " ++ n)) none none,
        [CoordEvent.persistUploadCall uid "PENDING" none,
          .uploadInvoked uid path,
          .persistUploadCall uid "FAILED" (some ("ERROR: " ++ n))])

/-- The per-destination loop, in configured order. -/
def uploadLoop (now : Nat) (url path : String)
    (uploaders : List (String × UploadBehavior)) (sm : StateManager) :
    StateManager × List CoordEvent :=
  match uploaders with
  | [] => (sm, [])
  | (uid, b) :: rest =>
    let r1 := uploadLoopStep now url path uid b sm
    let r2 := uploadLoop now url path rest r1.1
    (r2.1, r1.2 ++ r2.2)

/-- Resumability test of downloader.py lines 214-220: the step-1 snapshot
exists, its local_path is truthy, the file exists on disk, and the decoded
status is DOWNLOADED or UPLOAD_PENDING. -/
def resumableCheck (fs : String → Bool) (details : Option MediaItemDetails) : Bool :=
  match details with
  | some d =>
    match d.local_path with
    | some p =>
      !p.isEmpty && fs p &&
        (d.status = some MediaStatus.downloaded ||
          d.status = some MediaStatus.uploadPending)
    | none => false
  | none => false

/-- Post-download half of one coordinator iteration (downloader.py lines
258-405): retrieve the local file from the session cache, fall back to the
recorded path, on failure persist FAILED_DOWNLOAD (unless the step-1
snapshot already showed it) and continue; otherwise run the per-destination
loop; the finally block reconciles when the iteration got this far with a
file or when a download was attempted. -/
def afterDownload (fs : String → Bool) (now : Nat) (url : String)
    (uploaders : List (String × UploadBehavior))
    (details0 : Option MediaItemDetails) (downloadNeeded : Bool)
    (cache : List (String × String)) (sm : StateManager) :
    StateManager × List CoordEvent :=
  let ids := uploaders.map Prod.fst
  let fromCache : Option String :=
    match lookupBy url cache with
    | some p => if fs p then some p else none
    | none => none
  let retrieved : Option String :=
    match fromCache with
    | some p => some p
    | none =>
      match get_local_path sm url with
      | some p => if fs p then some p else none
      | none => none
  match retrieved with
  | none =>
    let alreadyFailed : Bool :=
      match details0 with
      | some d => d.status = some MediaStatus.failedDownload
      | none => false
    let sm1 :=
      if alreadyFailed then sm
      else
        add_or_update_media_item sm now url none none
          MediaStatus.failedDownload none
          (some "File not found post-download attempt or hook failure.") none
    if downloadNeeded then
      (update_item_status_if_all_uploads_done sm1 now url ids,
        [CoordEvent.reconcileInvoked])
    else (sm1, [])
  | some p =>
    let r := uploadLoop now url p uploaders sm
    (update_item_status_if_all_uploads_done r.1 now url ids,
      r.2 ++ [CoordEvent.reconcileInvoked])

/-- One iteration of `download_videos` (downloader.py lines 193-405) over a
single locator, starting from an empty session cache: skip when the item is
COMPLETED and every enabled uploader shows SUCCESS (the finally block still
reconciles); otherwise run the resumability check, invoke
`_download_video` when a download is needed (persisting FAILED_DOWNLOAD and
reconciling when it raises), then the post-download half.  `extract` and
`phase` script the external engine for the single attempt. -/
def processUrl (sm : StateManager) (fs : String → Bool) (now : Nat)
    (url : String) (uploaders : List (String × UploadBehavior))
    (extract : ExtractOutcome) (phase : DownloadPhase) :
    StateManager × List CoordEvent :=
  let ids := uploaders.map Prod.fst
  let details0 := get_media_item_details sm url
  let isCompleted : Bool :=
    match details0 with
    | some d => d.status = some MediaStatus.completed
    | none => false
  if isCompleted && is_video_processed_for_uploaders sm url ids then
    (update_item_status_if_all_uploads_done sm now url ids,
      [CoordEvent.reconcileInvoked])
  else
    if resumableCheck fs details0 then
      let p :=
        match details0 with
        | some d => d.local_path.getD ""
        | none => ""
      afterDownload fs now url uploaders details0 false
        (upsertBy url (fun _ => p) []) sm
    else
      let sm1 := add_or_update_media_item sm now url none none
        MediaStatus.pendingDownload none none none
      let dl := download_video sm1 [] now url extract phase
      match dl.outcome with
      | .raisesExc e =>
        let sm2 := add_or_update_media_item dl.sm now url none none
          MediaStatus.failedDownload none (some e.str) none
        (update_item_status_if_all_uploads_done sm2 now url ids,
          [CoordEvent.engineInvoked, CoordEvent.reconcileInvoked])
      | .ok _ =>
        let r := afterDownload fs now url uploaders details0 true dl.cache dl.sm
        (r.1, CoordEvent.engineInvoked :: r.2)

/- ===================== fixtures for concrete runs ===================== -/

/-- A media_items row with the given status, local_path and retry_count, the
other fields fixed, for concrete runs. -/
def exRow (status : String) (lp : Option String) (rc : Nat) : MediaItemRow :=
  { title := some "T", download_timestamp := none, local_path := lp,
    status := status, last_attempt_timestamp := none, yt_dlp_id := none,
    error_message := none, retry_count := rc, last_error_timestamp := none,
    metadata := none, created_at := 0, updated_at := 0 }

/-- An upload_status row with the given status and retry_count. -/
def exURow (status : String) (rc : Nat) : UploadRow :=
  { uploaded_id := some "id0", upload_timestamp := none, status := status,
    retry_count := rc, last_error_timestamp := none, metadata := none,
    created_at := 0, updated_at := 0 }

/-- A live store: item "u" DOWNLOADED at "/f", destination "D" SUCCESS. -/
def smC2w : StateManager :=
  { conn := true,
    media_items := [("u", exRow "DOWNLOADED" (some "/f") 0)],
    upload_status := [(("u", "D"), exURow "SUCCESS" 0)] }

/-- A live store: item "u" DOWNLOADED at "/f", destination "D" FAILED. -/
def smC2f : StateManager :=
  { conn := true,
    media_items := [("u", exRow "DOWNLOADED" (some "/f") 0)],
    upload_status := [(("u", "D"), exURow "FAILED" 1)] }

/-- A live store: item "u" DOWNLOADED at "/f", no upload records at all. -/
def smC2m : StateManager :=
  { conn := true,
    media_items := [("u", exRow "DOWNLOADED" (some "/f") 0)],
    upload_status := [] }

/-- A live store with an item at retry_count 2 and a FAILED record at
retry_count 2. -/
def smC6 : StateManager :=
  { conn := true,
    media_items := [("u", exRow "DOWNLOADED" none 2)],
    upload_status := [(("u", "D"), exURow "FAILED" 2)] }

/-- A live store whose item is in FAILED_DOWNLOAD. -/
def smC10 : StateManager :=
  { conn := true,
    media_items := [("u", exRow "FAILED_DOWNLOAD" none 1)],
    upload_status := [] }

/-- A live store with no rows. -/
def smEmpty : StateManager :=
  { conn := true, media_items := [], upload_status := [] }

/-- A live store: item "u" COMPLETED at "/f", destination "D" SUCCESS. -/
def smC4 : StateManager :=
  { conn := true,
    media_items := [("u", exRow "COMPLETED" (some "/f") 0)],
    upload_status := [(("u", "D"), exURow "SUCCESS" 0)] }

/-- Two destinations: "D1" always raises UploadError, "D2" succeeds with
"id2". -/
def c7uploaders : List (String × UploadBehavior) :=
  [("D1", UploadBehavior.raisesExc "UploadError"),
    ("D2", UploadBehavior.returnsId "id2")]

/-- A coordinator pass over a DOWNLOADED item at "/f" (file on disk, no
records yet) with the two destinations above. -/
def c7run : StateManager × List CoordEvent :=
  processUrl smC2m (fun p => p = "/f") 1 "u" c7uploaders
    (ExtractOutcome.raisesMsg "unused") ⟨[], none⟩

/-- Spec-side reading of "every enabled destination has an UploadRecord with
status Success", directly on the stored rows. -/
def allEnabledSuccess (sm : StateManager) (url : String) (ids : List String) : Bool :=
  ids.all (fun uid =>
    match lookupBy (url, uid) sm.upload_status with
    | some r => r.status = "SUCCESS"
    | none => false)

/-- Spec-side reading of "at least one enabled destination has an
UploadRecord with status Pending or Failed", directly on the stored rows. -/
def someEnabledPendingFailed (sm : StateManager) (url : String)
    (ids : List String) : Bool :=
  ids.any (fun uid =>
    match lookupBy (url, uid) sm.upload_status with
    | some r => r.status = "PENDING" || r.status = "FAILED"
    | none => false)

/- ===================== theorems ===================== -/

/-- Shifting one step of the delay recurrence into the segment index. -/
theorem retrySeg_shift {ε : Type} (hr : Bool) (b m d : ℚ) (es : Nat → ε)
    (att i : Nat) :
    retrySeg hr b m d es att (i + 1) =
      retrySeg hr b m (nextDelay b m d) es (att + 1) i := by
  have h1 : att + (i + 1) = att + 1 + i := by omega
  simp [retrySeg, delayAt, h1]

/-- Closed form of the retry loop on an operation that raises a retryable
exception at every attempt: the last exception is re-raised and the trace is
one segment (invoke, optional on_retry, sleep) per non-final attempt followed
by the final invocation. -/
theorem retryLoop_allRetryable {α ε : Type} (es : Nat → ε) (hr : Bool)
    (b m : ℚ) :
    ∀ (rem att : Nat) (d : ℚ),
      retryLoop (α := α) (fun n => OpOutcome.retryableExc (es n)) hr b m
          (rem + 1) att d =
        (RetryOutcome.raised (es (att + rem)),
          ((List.range rem).map (retrySeg hr b m d es att)).flatten ++
            [RetryEvent.invokeOp]) := by
  intro rem
  induction rem with
  | zero =>
    intro att d
    simp [retryLoop]
  | succ r ih =>
    intro att d
    have hseg : ∀ i : Nat,
        retrySeg hr b m d es att (i + 1) =
          retrySeg hr b m (nextDelay b m d) es (att + 1) i :=
      fun i => retrySeg_shift hr b m d es att i
    have hidx : att + (r + 1) = att + 1 + r := by omega
    rw [show r + 1 + 1 = r + 2 from rfl]
    simp only [retryLoop, ih (att + 1) (nextDelay b m d)]
    rw [List.range_succ_eq_map]
    simp only [List.map_cons, List.map_map, List.flatten_cons, Prod.mk.injEq]
    constructor
    · rw [hidx]
    · rw [show (retrySeg hr b m d es att ∘ Nat.succ) =
          retrySeg hr b m (nextDelay b m d) es (att + 1) from funext hseg]
      simp [retrySeg, delayAt, List.append_assoc]

/-- Each retry segment records exactly one invocation. -/
theorem retrySeg_filter_invoke {ε : Type} (hr : Bool) (b m d : ℚ)
    (es : Nat → ε) (att i : Nat) :
    (retrySeg hr b m d es att i).filter isInvokeEv = [RetryEvent.invokeOp] := by
  cases hr <;> simp [retrySeg, isInvokeEv]

/-- The joined segments record one invocation per segment. -/
theorem invocationCount_join_segs {ε : Type} (hr : Bool) (b m d : ℚ)
    (es : Nat → ε) (att : Nat) :
    ∀ idxs : List Nat,
      invocationCount ((idxs.map (retrySeg hr b m d es att)).flatten) =
        idxs.length := by
  intro idxs
  induction idxs with
  | nil => simp [invocationCount]
  | cons i rest ih =>
    simp only [List.map_cons, List.flatten_cons, invocationCount,
      List.filter_append, List.length_append] at ih ⊢
    rw [retrySeg_filter_invoke, ih]
    simp [Nat.add_comm]

/-- C1 (amended): for max_attempts at least 1, an operation that raises a
retryable exception at every invocation is invoked exactly max_attempts
times; after each non-final failed attempt with_retry calls
on_retry(exception, attempt_number) when supplied, then waits the current
delay (starting at initial_delay, multiplied by backoff_factor after each
retry, capped at max_delay), and invokes the operation again; after the final
failed attempt the last exception is re-raised.  An operation whose first
invocation raises an exception outside the retryable set is invoked exactly
once and that exception is re-raised immediately, with no waiting and no
on_retry call. -/
theorem c1_with_retry_behaviour {α ε : Type} (maxAttempts : Nat)
    (hma : 1 ≤ maxAttempts) (d0 m b : ℚ) (hr : Bool) (es : Nat → ε)
    (behave2 : Nat → OpOutcome α ε) (e2 : ε)
    (h2 : behave2 0 = OpOutcome.otherExc e2) :
    (with_retry (α := α) (fun n => OpOutcome.retryableExc (es n))
        maxAttempts d0 m b hr =
      (RetryOutcome.raised (es (maxAttempts - 1)),
        ((List.range (maxAttempts - 1)).map (retrySeg hr b m d0 es 0)).flatten ++
          [RetryEvent.invokeOp])) ∧
    invocationCount (with_retry (α := α) (fun n => OpOutcome.retryableExc (es n))
        maxAttempts d0 m b hr).2 = maxAttempts ∧
    with_retry behave2 maxAttempts d0 m b hr =
      (RetryOutcome.raised e2, [RetryEvent.invokeOp]) := by
  obtain ⟨rem, rfl⟩ : ∃ rem, maxAttempts = rem + 1 :=
    ⟨maxAttempts - 1, by omega⟩
  have hmain := retryLoop_allRetryable (α := α) es hr b m rem 0 d0
  refine ⟨?_, ?_, ?_⟩
  · show retryLoop _ hr b m (rem + 1) 0 d0 = _
    rw [hmain]
    simp
  · show invocationCount (retryLoop _ hr b m (rem + 1) 0 d0).2 = rem + 1
    rw [hmain]
    have hj := invocationCount_join_segs hr b m d0 es 0 (List.range rem)
    simp only [invocationCount, List.filter_append, List.length_append,
      List.length_range] at hj ⊢
    rw [hj]
    simp [isInvokeEv]
  · show retryLoop behave2 hr b m (rem + 1) 0 d0 = _
    match rem with
    | 0 => simp [retryLoop, h2]
    | r + 1 => simp [retryLoop, h2]

/-- C1 witness: the amended behaviour at max_attempts 3, initial delay 1,
max delay 30, backoff 2, with on_retry supplied. -/
theorem c1_with_retry_behaviour_witness :
    (with_retry (α := Nat) (fun n => OpOutcome.retryableExc n) 3 1 30 2 true =
      (RetryOutcome.raised (3 - 1),
        ((List.range (3 - 1)).map (retrySeg true 2 30 1 (fun n => n) 0)).flatten ++
          [RetryEvent.invokeOp])) ∧
    invocationCount (with_retry (α := Nat) (fun n => OpOutcome.retryableExc n)
        3 1 30 2 true).2 = 3 ∧
    with_retry (α := Nat) (fun _ => OpOutcome.otherExc 99) 3 1 30 2 true =
      (RetryOutcome.raised 99, [RetryEvent.invokeOp]) :=
  c1_with_retry_behaviour 3 (by decide) 1 30 2 true (fun n => n)
    (fun _ => OpOutcome.otherExc 99) 99 rfl

/-- C1 counterexample to the claim as stated: on a retryable failure the code
calls on_retry first and sleeps afterwards, while the claim lists the wait
before the on_retry call.  The concrete trace places the on_retry call at
index 1 and the sleep at index 2, so the trace the claim describes does not
occur. -/
theorem c1_with_retry_counterexample :
    (with_retry (α := Nat) (fun _ => OpOutcome.retryableExc 5) 2 1 30 2 true).2 =
      [RetryEvent.invokeOp, RetryEvent.onRetryCall 5 1, RetryEvent.sleepFor 1,
        RetryEvent.invokeOp] ∧
    (with_retry (α := Nat) (fun _ => OpOutcome.retryableExc 5) 2 1 30 2 true).2 ≠
      [RetryEvent.invokeOp, RetryEvent.sleepFor 1, RetryEvent.onRetryCall 5 1,
        RetryEvent.invokeOp] := by
  constructor <;> decide

/- ===================== store-level lemmas ===================== -/

/-- Lookup after an upsert at the same key yields the merged row. -/
theorem lookupBy_upsertBy_self {κ β : Type} [DecidableEq κ] (k : κ)
    (f : Option β → β) :
    ∀ l : List (κ × β), lookupBy k (upsertBy k f l) = some (f (lookupBy k l)) := by
  intro l
  induction l with
  | nil => simp [upsertBy, lookupBy]
  | cons e rest ih =>
    obtain ⟨k2, v⟩ := e
    by_cases h : k = k2
    · simp [upsertBy, lookupBy, h]
    · simp [upsertBy, lookupBy, h, ih]

/-- Lookup after an upsert at a different key is unchanged. -/
theorem lookupBy_upsertBy_ne {κ β : Type} [DecidableEq κ] {k k2 : κ}
    (h : k ≠ k2) (f : Option β → β) :
    ∀ l : List (κ × β), lookupBy k (upsertBy k2 f l) = lookupBy k l := by
  intro l
  induction l with
  | nil => simp [upsertBy, lookupBy, h]
  | cons e rest ih =>
    obtain ⟨k3, v⟩ := e
    by_cases h2 : k2 = k3
    · subst h2
      simp [upsertBy, lookupBy, h]
    · by_cases h3 : k = k3 <;> simp [upsertBy, lookupBy, h2, h3, ih]

/-- `update_upload_status` never changes the store (the statement fails to
prepare; see its definition). -/
theorem update_upload_status_eq_self (sm : StateManager) (now : Nat)
    (url uid : String) (st : UploadStatus) (uidd e md : Option String) :
    update_upload_status sm now url uid st uidd e md = sm := by
  unfold update_upload_status
  split <;> rfl

/-- `add_or_update_media_item` touches only the media_items table. -/
theorem add_or_update_preserves (sm : StateManager) (now : Nat) (url : String)
    (t lp : Option String) (st : MediaStatus) (y e md : Option String) :
    (add_or_update_media_item sm now url t lp st y e md).conn = sm.conn ∧
    (add_or_update_media_item sm now url t lp st y e md).upload_status =
      sm.upload_status := by
  unfold add_or_update_media_item
  split <;> simp

/-- After `add_or_update_media_item` on a live connection, the row of the
written url exists and its status is the incoming status string (both the
insert and the merge arm overwrite status). -/
theorem add_or_update_status_field (sm : StateManager) (now : Nat)
    (url : String) (t lp : Option String) (st : MediaStatus)
    (y e md : Option String) (hconn : sm.conn = true) :
    (lookupBy url (add_or_update_media_item sm now url t lp st y e md).media_items).map
      MediaItemRow.status = some st.value := by
  unfold add_or_update_media_item
  rw [hconn]
  simp only [Bool.true_eq_false, if_false, lookupBy_upsertBy_self]
  cases lookupBy url sm.media_items <;> simp

/-- `add_or_update_media_item` leaves the row of every other url alone. -/
theorem add_or_update_other_row (sm : StateManager) (now : Nat)
    (url url2 : String) (h : url2 ≠ url) (t lp : Option String)
    (st : MediaStatus) (y e md : Option String) :
    lookupBy url2 (add_or_update_media_item sm now url t lp st y e md).media_items =
      lookupBy url2 sm.media_items := by
  unfold add_or_update_media_item
  split
  · rfl
  · exact lookupBy_upsertBy_ne h _ sm.media_items

/- ===================== C3 : connection-failure behaviour ===================== -/

/-- C3 (amended): when the store connection has failed, every operation fails
open, not closed: it logs and returns a success-like default with no effect
and no error surfaced to the caller — writes leave the store unchanged,
reads report the item as absent, and the cleanup sweep reports zero
removals.  Callers cannot distinguish a dead store from success or absence. -/
theorem c3_fail_open (sm : StateManager) (h : sm.conn = false) :
    (∀ now url t lp st y e md,
      add_or_update_media_item sm now url t lp st y e md = sm) ∧
    (∀ now url uid st uidd e md,
      update_upload_status sm now url uid st uidd e md = sm) ∧
    (∀ url, get_media_item_details sm url = none) ∧
    (∀ now url ids, update_item_status_if_all_uploads_done sm now url ids = sm) ∧
    (∀ now days, cleanup_old_items sm now days = (sm, 0)) := by
  refine ⟨?_, ?_, ?_, ?_, ?_⟩ <;> intros <;>
    simp [add_or_update_media_item, update_upload_status,
      get_media_item_details, update_item_status_if_all_uploads_done,
      cleanup_old_items, h]

/-- A disconnected store that still holds a PENDING_DOWNLOAD item row. -/
def smDisc : StateManager :=
  { conn := false,
    media_items := [("u", exRow "PENDING_DOWNLOAD" none 0)],
    upload_status := [] }

/-- C3 witness: the fail-open behaviour at a concrete disconnected store. -/
theorem c3_fail_open_witness :
    add_or_update_media_item smDisc 1 "u" none none MediaStatus.completed
      none none none = smDisc ∧
    update_upload_status smDisc 1 "u" "D" UploadStatus.success (some "id")
      none none = smDisc ∧
    get_media_item_details smDisc "u" = none ∧
    update_item_status_if_all_uploads_done smDisc 1 "u" ["D"] = smDisc ∧
    cleanup_old_items smDisc 99 1 = (smDisc, 0) :=
  ⟨(c3_fail_open smDisc rfl).1 1 "u" none none MediaStatus.completed none none none,
    (c3_fail_open smDisc rfl).2.1 1 "u" "D" UploadStatus.success (some "id") none none,
    (c3_fail_open smDisc rfl).2.2.1 "u",
    (c3_fail_open smDisc rfl).2.2.2.1 1 "u" ["D"],
    (c3_fail_open smDisc rfl).2.2.2.2 99 1⟩

/-- C3 counterexample to the claim as stated: on a concrete store whose
connection has failed, a write returns normally leaving the store unchanged
(the stored status is still PENDING_DOWNLOAD, so persistence was silently
skipped), a read returns the absent default even though the row exists, and
the cleanup sweep returns the success-like count 0 — no fatal error is
observed anywhere. -/
theorem c3_fail_closed_counterexample :
    add_or_update_media_item smDisc 1 "u" none none MediaStatus.completed
      none none none = smDisc ∧
    (lookupBy "u" smDisc.media_items).map MediaItemRow.status =
      some "PENDING_DOWNLOAD" ∧
    get_media_item_details smDisc "u" = none ∧
    cleanup_old_items smDisc 99 1 = (smDisc, 0) := by
  refine ⟨?_, ?_, ?_, ?_⟩ <;> decide

/- ===================== decoding bridge lemmas ===================== -/

/-- Decoding a stored upload status yields SUCCESS exactly for the string
"SUCCESS". -/
theorem fromStr_success_iff (s : String) :
    UploadStatus.fromStr (some s) = some UploadStatus.success ↔ s = "SUCCESS" := by
  simp only [UploadStatus.fromStr]
  split_ifs with h1 h2 h3 h4 <;> simp_all

/-- Decoding a stored upload status yields PENDING or FAILED exactly for
those strings. -/
theorem fromStr_pending_or_failed_iff (s : String) :
    (UploadStatus.fromStr (some s) = some UploadStatus.pending ∨
      UploadStatus.fromStr (some s) = some UploadStatus.failed) ↔
    (s = "PENDING" ∨ s = "FAILED") := by
  simp only [UploadStatus.fromStr]
  split_ifs with h1 h2 h3 h4 <;> simp_all

/-- Decoding a stored media status yields DOWNLOADED exactly for the string
"DOWNLOADED". -/
theorem mFromStr_downloaded_iff (s : String) :
    MediaStatus.fromStr (some s) = some MediaStatus.downloaded ↔
      s = "DOWNLOADED" := by
  simp only [MediaStatus.fromStr]
  split_ifs <;> simp_all

/-- Decoding a stored media status yields COMPLETED exactly for the string
"COMPLETED". -/
theorem mFromStr_completed_iff (s : String) :
    MediaStatus.fromStr (some s) = some MediaStatus.completed ↔
      s = "COMPLETED" := by
  simp only [MediaStatus.fromStr]
  split_ifs <;> simp_all

/-- Lookup in the uploads dict of a video is lookup of the stored row under
the composite key, converted. -/
theorem lookupBy_uploadsFor (url uid : String)
    (l : List ((String × String) × UploadRow)) :
    lookupBy uid (l.filterMap (fun e =>
        if e.1.1 = url then some (e.1.2, uploadDetailsOf e.2) else none)) =
      Option.map uploadDetailsOf (lookupBy (url, uid) l) := by
  induction l with
  | nil => rfl
  | cons e rest ih =>
    obtain ⟨⟨a, b⟩, r⟩ := e
    by_cases ha : a = url
    · subst ha
      by_cases hb : uid = b
      · subst hb
        simp [List.filterMap_cons, lookupBy]
      · simp [List.filterMap_cons, lookupBy, hb, ih, Prod.mk.injEq]
    · have hne : (url, uid) ≠ (a, b) := by
        intro hcontra
        exact ha ((Prod.mk.injEq url uid a b).mp hcontra).1.symm
      simp only [List.filterMap_cons]
      rw [if_neg (fun hcontra => ha hcontra)]
      rw [show lookupBy (url, uid) (((a, b), r) :: rest) =
        lookupBy (url, uid) rest from by simp [lookupBy, hne]]
      exact ih

/-- The uploads dict of `get_media_item_details`, read at one uploader. -/
theorem lookupBy_uploadsFor_sm (sm : StateManager) (url uid : String) :
    lookupBy uid (uploadsFor sm url) =
      Option.map uploadDetailsOf (lookupBy (url, uid) sm.upload_status) :=
  lookupBy_uploadsFor url uid sm.upload_status

/-- Decoding a stored upload status yields PENDING exactly for "PENDING". -/
theorem fromStr_pending_iff (s : String) :
    UploadStatus.fromStr (some s) = some UploadStatus.pending ↔ s = "PENDING" := by
  simp only [UploadStatus.fromStr]
  split_ifs <;> simp_all

/-- Decoding a stored upload status yields FAILED exactly for "FAILED". -/
theorem fromStr_failed_iff (s : String) :
    UploadStatus.fromStr (some s) = some UploadStatus.failed ↔ s = "FAILED" := by
  simp only [UploadStatus.fromStr]
  split_ifs <;> simp_all

/-- The all-SUCCESS test over the uploads dict equals the spec-side test over
the stored rows. -/
theorem all_success_bridge (sm : StateManager) (url : String) (ids : List String) :
    (ids.all (fun uid =>
      match lookupBy uid (uploadsFor sm url) with
      | some u => u.status = some UploadStatus.success
      | none => false)) = allEnabledSuccess sm url ids := by
  induction ids with
  | nil => rfl
  | cons uid rest ih =>
    simp only [List.all_cons, allEnabledSuccess] at ih ⊢
    rw [ih]
    congr 1
    rw [lookupBy_uploadsFor_sm]
    cases lookupBy (url, uid) sm.upload_status with
    | none => rfl
    | some r =>
      simp only [Option.map_some']
      exact decide_eq_decide.mpr (by simpa [uploadDetailsOf] using fromStr_success_iff r.status)

/-- The some-PENDING-or-FAILED test over the uploads dict equals the
spec-side test over the stored rows. -/
theorem any_pending_failed_bridge (sm : StateManager) (url : String)
    (ids : List String) :
    (ids.any (fun uid =>
      match lookupBy uid (uploadsFor sm url) with
      | some u =>
        u.status = some UploadStatus.pending ||
          u.status = some UploadStatus.failed
      | none => false)) = someEnabledPendingFailed sm url ids := by
  induction ids with
  | nil => rfl
  | cons uid rest ih =>
    simp only [List.any_cons, someEnabledPendingFailed] at ih ⊢
    rw [ih]
    congr 1
    rw [lookupBy_uploadsFor_sm]
    cases lookupBy (url, uid) sm.upload_status with
    | none => rfl
    | some r =>
      simp only [Option.map_some']
      have h1 := fromStr_pending_iff r.status
      have h2 := fromStr_failed_iff r.status
      simp only [uploadDetailsOf]
      rw [show (decide (UploadStatus.fromStr (some r.status) = some UploadStatus.pending)) =
        (decide (r.status = "PENDING")) from decide_eq_decide.mpr h1]
      rw [show (decide (UploadStatus.fromStr (some r.status) = some UploadStatus.failed)) =
        (decide (r.status = "FAILED")) from decide_eq_decide.mpr h2]

/-- `get_media_item_details` on a live connection and an existing row. -/
theorem get_details_some (sm : StateManager) (url : String) (mrow : MediaItemRow)
    (hconn : sm.conn = true) (hrow : lookupBy url sm.media_items = some mrow) :
    get_media_item_details sm url = some
      { status := MediaStatus.fromStr (some mrow.status)
        local_path := mrow.local_path
        title := mrow.title
        error_message := mrow.error_message
        retry_count := mrow.retry_count
        uploads := uploadsFor sm url } := by
  simp [get_media_item_details, hconn, hrow]

/-- On a live connection with an existing item row and a nonempty uploader
list, `is_video_processed_for_uploaders` is exactly the spec-side
all-SUCCESS test. -/
theorem is_processed_eq_allEnabledSuccess (sm : StateManager) (url : String)
    (ids : List String) (mrow : MediaItemRow) (hconn : sm.conn = true)
    (hrow : lookupBy url sm.media_items = some mrow) (hids : ids ≠ []) :
    is_video_processed_for_uploaders sm url ids = allEnabledSuccess sm url ids := by
  obtain ⟨uid0, rest, rfl⟩ : ∃ a l, ids = a :: l := by
    cases ids with
    | nil => exact absurd rfl hids
    | cons a l => exact ⟨a, l, rfl⟩
  unfold is_video_processed_for_uploaders
  rw [get_details_some sm url mrow hconn hrow]
  simp only [hconn, List.isEmpty_cons, Bool.or_false, decide_eq_true_eq]
  rw [if_neg (by simp)]
  by_cases hemp : (uploadsFor sm url).isEmpty
  · rw [if_pos hemp]
    have hnone : lookupBy (url, uid0) sm.upload_status = none := by
      have hb := lookupBy_uploadsFor_sm sm url uid0
      rw [List.isEmpty_iff.mp hemp] at hb
      cases hx : lookupBy (url, uid0) sm.upload_status with
      | none => rfl
      | some r => rw [hx] at hb; exact absurd hb.symm (by simp [lookupBy])
    simp [allEnabledSuccess, List.all_cons, hnone]
  · rw [if_neg hemp]
    exact all_success_bridge sm url (uid0 :: rest)

/-- C2 (amended): with at least one enabled destination, a live connection
and an existing item row, reconciliation writes COMPLETED exactly when every
enabled destination has an UploadRecord stored SUCCESS; otherwise, when the
current status is DOWNLOADED and at least one enabled destination has an
UploadRecord stored PENDING or FAILED the status becomes UPLOAD_PENDING, and
in every other case — in particular when the only non-SUCCESS destinations
are ones with no record at all — the status is left unchanged. -/
theorem c2_reconciliation_amended (sm : StateManager) (now : Nat) (url : String)
    (ids : List String) (mrow : MediaItemRow) (hconn : sm.conn = true)
    (hrow : lookupBy url sm.media_items = some mrow) (hids : ids ≠ []) :
    (allEnabledSuccess sm url ids = true →
      (lookupBy url (update_item_status_if_all_uploads_done sm now url ids).media_items).map
        MediaItemRow.status = some "COMPLETED") ∧
    (allEnabledSuccess sm url ids = false →
      (lookupBy url (update_item_status_if_all_uploads_done sm now url ids).media_items).map
        MediaItemRow.status =
        some (if mrow.status = "DOWNLOADED" ∧ someEnabledPendingFailed sm url ids = true
          then "UPLOAD_PENDING" else mrow.status)) := by
  have hproc := is_processed_eq_allEnabledSuccess sm url ids mrow hconn hrow hids
  have hdet := get_details_some sm url mrow hconn hrow
  have hempty : ids.isEmpty = false := by
    cases ids with
    | nil => exact absurd rfl hids
    | cons a l => rfl
  constructor
  · intro hall
    unfold update_item_status_if_all_uploads_done
    rw [if_neg (by simp [hconn]), hempty]
    rw [if_neg (by simp), hproc, hall, if_pos rfl]
    have hupd := add_or_update_status_field sm now url none none
      MediaStatus.completed none none none hconn
    simpa [MediaStatus.value] using hupd
  · intro hall
    unfold update_item_status_if_all_uploads_done
    rw [if_neg (by simp [hconn]), hempty]
    rw [if_neg (by simp), hproc, hall, if_neg (by simp), hdet]
    by_cases hs : mrow.status = "DOWNLOADED"
    · have hds := (mFromStr_downloaded_iff mrow.status).mpr hs
      by_cases hany : someEnabledPendingFailed sm url ids = true
      · have hanyb : (ids.any (fun uid =>
            match lookupBy uid (uploadsFor sm url) with
            | some u =>
              u.status = some UploadStatus.pending ||
                u.status = some UploadStatus.failed
            | none => false)) = true := by
          rw [any_pending_failed_bridge]
          exact hany
        have hupd := add_or_update_status_field sm now url none none
          MediaStatus.uploadPending none none none hconn
        simp only [hds, hanyb]
        simp [hs, hany, hupd, MediaStatus.value]
      · have hanyb : (ids.any (fun uid =>
            match lookupBy uid (uploadsFor sm url) with
            | some u =>
              u.status = some UploadStatus.pending ||
                u.status = some UploadStatus.failed
            | none => false)) = false := by
          rw [any_pending_failed_bridge]
          exact Bool.not_eq_true _ ▸ eq_false_of_ne_true hany
        simp only [hds, hanyb]
        simp [hrow, hs, hany]
    · have hds : MediaStatus.fromStr (some mrow.status) ≠ some MediaStatus.downloaded :=
        fun hcon => hs ((mFromStr_downloaded_iff mrow.status).mp hcon)
      by_cases hguard :
          (MediaStatus.fromStr (some mrow.status) ≠ some MediaStatus.failedDownload ∧
            MediaStatus.fromStr (some mrow.status) ≠ some MediaStatus.failedUpload)
      · simp [hguard, hds, hrow, hs]
      · simp [hguard, hds, hrow, hs]

/-- C2 witness: on a concrete store with one enabled destination, all-SUCCESS
reconciles to COMPLETED, and a FAILED record reconciles DOWNLOADED to
UPLOAD_PENDING. -/
theorem c2_reconciliation_amended_witness :
    (lookupBy "u" (update_item_status_if_all_uploads_done smC2w 1 "u" ["D"]).media_items).map
      MediaItemRow.status = some "COMPLETED" ∧
    (lookupBy "u" (update_item_status_if_all_uploads_done smC2f 1 "u" ["D"]).media_items).map
      MediaItemRow.status =
      some (if (exRow "DOWNLOADED" (some "/f") 0).status = "DOWNLOADED" ∧
          someEnabledPendingFailed smC2f "u" ["D"] = true
        then "UPLOAD_PENDING" else (exRow "DOWNLOADED" (some "/f") 0).status) :=
  ⟨(c2_reconciliation_amended smC2w 1 "u" ["D"] (exRow "DOWNLOADED" (some "/f") 0)
      (by decide) (by decide) (by decide)).1 (by decide),
    (c2_reconciliation_amended smC2f 1 "u" ["D"] (exRow "DOWNLOADED" (some "/f") 0)
      (by decide) (by decide) (by decide)).2 (by decide)⟩

/-- C2 counterexample to the claim as stated: destination "D" is enabled but
has no UploadRecord at all ("missing"); the item is DOWNLOADED; the claim
says the status becomes UploadPending, but reconciliation leaves it
DOWNLOADED because only records decoded as PENDING or FAILED trigger the
transition. -/
theorem c2_reconciliation_counterexample :
    (lookupBy "u" (update_item_status_if_all_uploads_done smC2m 1 "u" ["D"]).media_items).map
      MediaItemRow.status = some "DOWNLOADED" ∧
    (lookupBy "u" (update_item_status_if_all_uploads_done smC2m 1 "u" ["D"]).media_items).map
      MediaItemRow.status ≠ some "UPLOAD_PENDING" := by
  constructor <;> decide

/- ===================== C6 : retry_count bookkeeping ===================== -/

/-- C6: the claim holds for `add_or_update_media_item` — the stored
retry_count becomes previous + 1 on an error-carrying write (3 from 2; 1 for
a new row) and is preserved otherwise — but fails for
`update_upload_status`: because its upsert statement references the
non-existent column `excluded.error_message`, sqlite raises on every call
and nothing is written, so an error-carrying call leaves an existing record
at retry_count 2 (the claim requires 3) and creates no record at all for a
new key (the claim requires one at retry_count 1).  The last conjunct shows
the merge the SQL text describes, which would have produced 3. -/
theorem c6_retry_count_code_bug :
    ((lookupBy "u" (add_or_update_media_item smC6 1 "u" none none
        MediaStatus.failedDownload none (some "boom") none).media_items).map
      MediaItemRow.retry_count = some 3) ∧
    ((lookupBy "u" (add_or_update_media_item smC6 1 "u" none none
        MediaStatus.completed none none none).media_items).map
      MediaItemRow.retry_count = some 2) ∧
    ((lookupBy "v" (add_or_update_media_item smC6 1 "v" none none
        MediaStatus.failedDownload none (some "boom") none).media_items).map
      MediaItemRow.retry_count = some 1) ∧
    (lookupBy ("u", "D") (update_upload_status smC6 1 "u" "D"
        UploadStatus.failed none (some "boom") none).upload_status =
      some (exURow "FAILED" 2)) ∧
    (lookupBy ("u", "D2") (update_upload_status smC6 1 "u" "D2"
        UploadStatus.failed none (some "boom") none).upload_status = none) ∧
    ((lookupBy ("u", "D") (update_upload_status_statement smC6 1 "u" "D"
        UploadStatus.failed none (some "boom") none).upload_status).map
      UploadRow.retry_count = some 3) := by
  refine ⟨?_, ?_, ?_, ?_, ?_, ?_⟩ <;> decide

/- ===================== C10 : zero destinations ===================== -/

/-- `get_media_item_details` of an absent row is `None`. -/
theorem get_details_none (sm : StateManager) (url : String)
    (h : lookupBy url sm.media_items = none) :
    get_media_item_details sm url = none := by
  unfold get_media_item_details
  split
  · rfl
  · rw [h]

/-- Evaluation of one coordinator iteration whose item is unknown and whose
engine attempt fails during info extraction: PENDING_DOWNLOAD is written,
the engine is invoked, FAILED_DOWNLOAD is written with the classified
message, and the finally block reconciles. -/
theorem processUrl_extract_raises (sm : StateManager) (fs : String → Bool)
    (now : Nat) (url : String) (uploaders : List (String × UploadBehavior))
    (msg : String) (phase : DownloadPhase)
    (hd0 : get_media_item_details sm url = none) :
    processUrl sm fs now url uploaders (ExtractOutcome.raisesMsg msg) phase =
      (update_item_status_if_all_uploads_done
          (add_or_update_media_item
            (add_or_update_media_item sm now url none none
              MediaStatus.pendingDownload none none none)
            now url none none MediaStatus.failedDownload none
            (some (classifyInfoExc url msg).str) none)
          now url (uploaders.map Prod.fst),
        [CoordEvent.engineInvoked, CoordEvent.reconcileInvoked]) := by
  unfold processUrl
  rw [hd0]
  simp [download_video, resumableCheck]

/-- C10: with an empty enabled-destination list the reconcile writes
COMPLETED no matter what the current status is (first conjunct, for any live
store — including one in FAILED_DOWNLOAD or PENDING_DOWNLOAD); hence a
coordinator iteration whose download attempt fails with no destinations
configured ends with the item marked COMPLETED (second conjunct). -/
theorem c10_zero_destinations_completed (sm smB : StateManager) (now : Nat)
    (url : String) (fs : String → Bool) (msg : String) (phase : DownloadPhase)
    (hconn : sm.conn = true) (hconnB : smB.conn = true)
    (habsent : lookupBy url smB.media_items = none) :
    ((lookupBy url (update_item_status_if_all_uploads_done sm now url []).media_items).map
        MediaItemRow.status = some "COMPLETED") ∧
    ((lookupBy url (processUrl smB fs now url []
          (ExtractOutcome.raisesMsg msg) phase).1.media_items).map
        MediaItemRow.status = some "COMPLETED") := by
  have partA : ∀ s : StateManager, s.conn = true →
      (lookupBy url (update_item_status_if_all_uploads_done s now url []).media_items).map
        MediaItemRow.status = some "COMPLETED" := by
    intro s hc
    unfold update_item_status_if_all_uploads_done
    rw [if_neg (by simp [hc]),
      if_pos (show ([] : List String).isEmpty = true from rfl)]
    simpa [MediaStatus.value] using
      add_or_update_status_field s now url none none MediaStatus.completed
        none none none hc
  refine ⟨partA sm hconn, ?_⟩
  rw [processUrl_extract_raises smB fs now url [] msg phase
    (get_details_none smB url habsent)]
  refine partA _ ?_
  rw [(add_or_update_preserves _ _ _ _ _ _ _ _ _).1,
    (add_or_update_preserves _ _ _ _ _ _ _ _ _).1]
  exact hconnB

/-- C10 witness: a concrete FAILED_DOWNLOAD item reconciled with zero
destinations, and a concrete failed-download iteration on an empty store. -/
theorem c10_zero_destinations_completed_witness :
    ((lookupBy "u" (update_item_status_if_all_uploads_done smC10 1 "u" []).media_items).map
        MediaItemRow.status = some "COMPLETED") ∧
    ((lookupBy "u" (processUrl smEmpty (fun _ => false) 1 "u" []
          (ExtractOutcome.raisesMsg "boom") ⟨[], none⟩).1.media_items).map
        MediaItemRow.status = some "COMPLETED") :=
  c10_zero_destinations_completed smC10 smEmpty 1 "u" (fun _ => false) "boom"
    ⟨[], none⟩ rfl rfl rfl

/- ===================== coordinator preservation lemmas ===================== -/

/-- `add_or_update_media_item` leaves the connection flag alone. -/
theorem add_or_update_conn (sm : StateManager) (now : Nat) (url : String)
    (t lp : Option String) (st : MediaStatus) (y e md : Option String) :
    (add_or_update_media_item sm now url t lp st y e md).conn = sm.conn :=
  (add_or_update_preserves sm now url t lp st y e md).1

/-- `add_or_update_media_item` leaves the upload_status table alone. -/
theorem add_or_update_us (sm : StateManager) (now : Nat) (url : String)
    (t lp : Option String) (st : MediaStatus) (y e md : Option String) :
    (add_or_update_media_item sm now url t lp st y e md).upload_status =
      sm.upload_status :=
  (add_or_update_preserves sm now url t lp st y e md).2

/-- `add_or_update_media_item` never deletes an existing row. -/
theorem add_or_update_keeps_row (sm : StateManager) (now : Nat)
    (url2 url : String) (t lp : Option String) (st : MediaStatus)
    (y e md : Option String) (h : (lookupBy url sm.media_items).isSome) :
    (lookupBy url (add_or_update_media_item sm now url2 t lp st y e md).media_items).isSome := by
  by_cases hu : url = url2
  · subst hu
    unfold add_or_update_media_item
    split
    · exact h
    · simp [lookupBy_upsertBy_self]
  · rw [add_or_update_other_row sm now url2 url hu t lp st y e md]
    exact h

/-- The reconcile step leaves the upload_status table alone. -/
theorem update_item_us (sm : StateManager) (now : Nat) (url : String)
    (ids : List String) :
    (update_item_status_if_all_uploads_done sm now url ids).upload_status =
      sm.upload_status := by
  unfold update_item_status_if_all_uploads_done
  split
  · rfl
  · split
    · exact add_or_update_us _ _ _ _ _ _ _ _ _
    · split
      · exact add_or_update_us _ _ _ _ _ _ _ _ _
      · split
        · rfl
        · split
          · split
            · split
              · exact add_or_update_us _ _ _ _ _ _ _ _ _
              · rfl
            · rfl
          · rfl

/-- One progress-hook callback leaves the upload_status table alone. -/
theorem progressHook_us (now : Nat) (cache : List (String × String))
    (sm : StateManager) (ev : HookEvent) :
    (progressHook now cache sm ev).2.upload_status = sm.upload_status := by
  cases ev with
  | finished u path t y => cases u <;> simp [progressHook, add_or_update_us]
  | errored u t m => cases u <;> simp [progressHook, add_or_update_us]

/-- One progress-hook callback leaves the connection flag alone. -/
theorem progressHook_conn (now : Nat) (cache : List (String × String))
    (sm : StateManager) (ev : HookEvent) :
    (progressHook now cache sm ev).2.conn = sm.conn := by
  cases ev with
  | finished u path t y => cases u <;> simp [progressHook, add_or_update_conn]
  | errored u t m => cases u <;> simp [progressHook, add_or_update_conn]

/-- One progress-hook callback never deletes a media row. -/
theorem progressHook_row (now : Nat) (cache : List (String × String))
    (sm : StateManager) (ev : HookEvent) (url : String)
    (h : (lookupBy url sm.media_items).isSome) :
    (lookupBy url (progressHook now cache sm ev).2.media_items).isSome := by
  cases ev with
  | finished u path t y =>
    cases u with
    | none => exact h
    | some u2 =>
      exact add_or_update_keeps_row sm now u2 url t (some path)
        MediaStatus.downloaded y none none h
  | errored u t m =>
    cases u with
    | none => exact h
    | some u2 =>
      exact add_or_update_keeps_row sm now u2 url t none
        MediaStatus.failedDownload none (some m) none h

/-- The hook fold preserves upload_status, the connection flag, and row
existence. -/
theorem runHooks_preserves (now : Nat) :
    ∀ (hooks : List HookEvent) (cache : List (String × String))
      (sm : StateManager) (url : String),
      (runHooks now hooks cache sm).2.upload_status = sm.upload_status ∧
      (runHooks now hooks cache sm).2.conn = sm.conn ∧
      ((lookupBy url sm.media_items).isSome →
        (lookupBy url (runHooks now hooks cache sm).2.media_items).isSome) := by
  intro hooks
  induction hooks with
  | nil => intro cache sm url; exact ⟨rfl, rfl, fun h => h⟩
  | cons ev rest ih =>
    intro cache sm url
    obtain ⟨ih1, ih2, ih3⟩ :=
      ih (progressHook now cache sm ev).1 (progressHook now cache sm ev).2 url
    refine ⟨?_, ?_, ?_⟩
    · rw [show runHooks now (ev :: rest) cache sm =
        runHooks now rest (progressHook now cache sm ev).1
          (progressHook now cache sm ev).2 from rfl]
      rw [ih1, progressHook_us]
    · rw [show runHooks now (ev :: rest) cache sm =
        runHooks now rest (progressHook now cache sm ev).1
          (progressHook now cache sm ev).2 from rfl]
      rw [ih2, progressHook_conn]
    · intro h
      rw [show runHooks now (ev :: rest) cache sm =
        runHooks now rest (progressHook now cache sm ev).1
          (progressHook now cache sm ev).2 from rfl]
      exact ih3 (progressHook_row now cache sm ev url h)

/-- One engine attempt preserves upload_status, the connection flag, and row
existence. -/
theorem download_video_preserves (sm : StateManager)
    (cache : List (String × String)) (now : Nat) (url2 : String)
    (extract : ExtractOutcome) (phase : DownloadPhase) (url : String) :
    (download_video sm cache now url2 extract phase).sm.upload_status =
      sm.upload_status ∧
    (download_video sm cache now url2 extract phase).sm.conn = sm.conn ∧
    ((lookupBy url sm.media_items).isSome →
      (lookupBy url (download_video sm cache now url2 extract phase).sm.media_items).isSome) := by
  cases extract with
  | raisesMsg msg => exact ⟨rfl, rfl, fun h => h⟩
  | noInfo => exact ⟨rfl, rfl, fun h => h⟩
  | okInfo title ytid =>
    obtain ⟨h1, h2, h3⟩ := runHooks_preserves now phase.hooks cache
      (add_or_update_media_item sm now url2 title none MediaStatus.downloading
        ytid none none) url
    have hd : (download_video sm cache now url2
        (ExtractOutcome.okInfo title ytid) phase).sm =
        (runHooks now phase.hooks cache
          (add_or_update_media_item sm now url2 title none
            MediaStatus.downloading ytid none none)).2 := by
      unfold download_video
      cases phase.raisesMsg <;> rfl
    rw [hd, h1, h2, add_or_update_us, add_or_update_conn]
    refine ⟨rfl, rfl, fun h => ?_⟩
    exact h3 (add_or_update_keeps_row sm now url2 url title none
      MediaStatus.downloading ytid none none h)

/-- One iteration of the destination loop never changes the store (every
persist call inside it is the failing `update_upload_status`). -/
theorem uploadLoopStep_state (now : Nat) (url p uid : String)
    (b : UploadBehavior) (sm : StateManager) :
    (uploadLoopStep now url p uid b sm).1 = sm := by
  unfold uploadLoopStep
  simp only [update_upload_status_eq_self]
  split
  · rfl
  · cases b with
    | returnsId cid => by_cases hc : cid.isEmpty <;> simp [hc]
    | returnsNone => rfl
    | raisesExc n => rfl

/-- The destination loop never changes the store. -/
theorem uploadLoop_state (now : Nat) (url p : String) :
    ∀ (ups : List (String × UploadBehavior)) (sm : StateManager),
      (uploadLoop now url p ups sm).1 = sm := by
  intro ups
  induction ups with
  | nil => intro sm; rfl
  | cons ub rest ih =>
    intro sm
    show (uploadLoop now url p rest (uploadLoopStep now url p ub.1 ub.2 sm).1).1 = sm
    rw [ih, uploadLoopStep_state]

/-- The events of one destination-loop iteration: nothing (skip), or exactly
persist-PENDING, the upload invocation, and one final persist. -/
theorem uploadLoopStep_events_cases (now : Nat) (url p uid : String)
    (b : UploadBehavior) (sm : StateManager) :
    (uploadLoopStep now url p uid b sm).2 = [] ∨
    ∃ tag oid, (uploadLoopStep now url p uid b sm).2 =
      [CoordEvent.persistUploadCall uid "PENDING" none,
        CoordEvent.uploadInvoked uid p,
        CoordEvent.persistUploadCall uid tag oid] := by
  unfold uploadLoopStep
  by_cases hf : freshUploadStatus sm url uid = some UploadStatus.success
  · rw [if_pos hf]
    exact Or.inl rfl
  · rw [if_neg hf]
    cases b with
    | returnsId cid =>
      by_cases hc : cid.isEmpty = true
      · refine Or.inr ⟨"FAILED", some "FAILED_NO_ID", ?_⟩
        simp [hc]
      · refine Or.inr ⟨"SUCCESS", some cid, ?_⟩
        simp [eq_false_of_ne_true hc]
    | returnsNone => exact Or.inr ⟨"FAILED", some "FAILED_NO_ID", rfl⟩
    | raisesExc n => exact Or.inr ⟨"FAILED", some ("ERROR: " ++ n), rfl⟩

/-- A destination whose fresh record decodes as SUCCESS is skipped: no state
change and no events. -/
theorem uploadLoopStep_skip (now : Nat) (url p d : String) (s : StateManager)
    (urec : UploadRow) (mrow : MediaItemRow) (hc : s.conn = true)
    (hmrow : lookupBy url s.media_items = some mrow)
    (hr : lookupBy (url, d) s.upload_status = some urec)
    (hsucc : urec.status = "SUCCESS") (b : UploadBehavior) :
    uploadLoopStep now url p d b s = (s, []) := by
  have hf : freshUploadStatus s url d = some UploadStatus.success := by
    unfold freshUploadStatus
    rw [get_details_some s url mrow hc hmrow]
    have hl : lookupBy d (uploadsFor s url) = some (uploadDetailsOf urec) := by
      rw [lookupBy_uploadsFor_sm, hr]
      rfl
    simp [hl, uploadDetailsOf, hsucc, UploadStatus.fromStr]
  unfold uploadLoopStep
  rw [if_pos hf]

/-- While a SUCCESS record for destination d is stored (and the item row
exists), the destination loop emits no persist call and no upload invocation
for d. -/
theorem uploadLoop_no_events_for (now : Nat) (url p d : String)
    (urec : UploadRow) (hsucc : urec.status = "SUCCESS") :
    ∀ (ups : List (String × UploadBehavior)) (s : StateManager),
      s.conn = true → lookupBy (url, d) s.upload_status = some urec →
      (lookupBy url s.media_items).isSome = true →
      (∀ st oid, CoordEvent.persistUploadCall d st oid ∉
          (uploadLoop now url p ups s).2) ∧
      (∀ q, CoordEvent.uploadInvoked d q ∉ (uploadLoop now url p ups s).2) := by
  intro ups
  induction ups with
  | nil =>
    intro s _ _ _
    constructor
    · intro st oid h
      simp [uploadLoop] at h
    · intro q h
      simp [uploadLoop] at h
  | cons ub rest ih =>
    intro s hc hr hm
    obtain ⟨uid, b⟩ := ub
    have hstate := uploadLoopStep_state now url p uid b s
    have hrest := ih (uploadLoopStep now url p uid b s).1
      (by rw [hstate]; exact hc) (by rw [hstate]; exact hr)
      (by rw [hstate]; exact hm)
    have hev : (uploadLoop now url p ((uid, b) :: rest) s).2 =
        (uploadLoopStep now url p uid b s).2 ++
          (uploadLoop now url p rest (uploadLoopStep now url p uid b s).1).2 := rfl
    by_cases hd : uid = d
    · subst hd
      obtain ⟨mrow, hmrow⟩ := Option.isSome_iff_exists.mp hm
      have hskip := uploadLoopStep_skip now url p uid s urec mrow hc hmrow hr hsucc b
      constructor
      · intro st oid h
        rw [hev, hskip] at h
        simp only [List.nil_append] at h
        exact hrest.1 st oid (by rw [hskip]; exact h)
      · intro q h
        rw [hev, hskip] at h
        simp only [List.nil_append] at h
        exact hrest.2 q (by rw [hskip]; exact h)
    · constructor
      · intro st oid h
        rw [hev] at h
        rcases List.mem_append.mp h with h2 | h2
        · rcases uploadLoopStep_events_cases now url p uid b s with hnil | ⟨tag, oid2, heq⟩
          · rw [hnil] at h2
            simp at h2
          · rw [heq] at h2
            simp only [List.mem_cons, List.not_mem_nil, or_false] at h2
            rcases h2 with h3 | h3 | h3
            · injection h3 with h4 h5 h6
              exact absurd h4.symm hd
            · exact CoordEvent.noConfusion h3
            · injection h3 with h4 h5 h6
              exact absurd h4.symm hd
        · exact hrest.1 st oid h2
      · intro q h
        rw [hev] at h
        rcases List.mem_append.mp h with h2 | h2
        · rcases uploadLoopStep_events_cases now url p uid b s with hnil | ⟨tag, oid2, heq⟩
          · rw [hnil] at h2
            simp at h2
          · rw [heq] at h2
            simp only [List.mem_cons, List.not_mem_nil, or_false] at h2
            rcases h2 with h3 | h3 | h3
            · exact CoordEvent.noConfusion h3
            · injection h3 with h4 h5
              exact absurd h4.symm hd
            · exact CoordEvent.noConfusion h3
        · exact hrest.2 q h2

/-- One engine attempt leaves the upload_status table alone. -/
theorem download_video_us (sm : StateManager) (cache : List (String × String))
    (now : Nat) (url2 : String) (extract : ExtractOutcome) (phase : DownloadPhase) :
    (download_video sm cache now url2 extract phase).sm.upload_status =
      sm.upload_status :=
  (download_video_preserves sm cache now url2 extract phase url2).1

/-- One engine attempt leaves the connection flag alone. -/
theorem download_video_conn (sm : StateManager) (cache : List (String × String))
    (now : Nat) (url2 : String) (extract : ExtractOutcome) (phase : DownloadPhase) :
    (download_video sm cache now url2 extract phase).sm.conn = sm.conn :=
  (download_video_preserves sm cache now url2 extract phase url2).2.1

/-- The post-download half leaves the upload_status table alone. -/
theorem afterDownload_us (fs : String → Bool) (now : Nat) (url : String)
    (ups : List (String × UploadBehavior)) (details0 : Option MediaItemDetails)
    (dn : Bool) (cache : List (String × String)) (s : StateManager) :
    (afterDownload fs now url ups details0 dn cache s).1.upload_status =
      s.upload_status := by
  simp only [afterDownload]
  repeat' split
  all_goals simp [update_item_us, uploadLoop_state, add_or_update_us]

/-- The post-download half started from a session cache holding a path that
exists on disk goes straight to the destination loop and the reconcile. -/
theorem afterDownload_cachehit (fs : String → Bool) (now : Nat) (url : String)
    (ups : List (String × UploadBehavior)) (details0 : Option MediaItemDetails)
    (dn : Bool) (p : String) (s : StateManager) (hfs : fs p = true) :
    afterDownload fs now url ups details0 dn (upsertBy url (fun _ => p) []) s =
      (update_item_status_if_all_uploads_done (uploadLoop now url p ups s).1
          now url (ups.map Prod.fst),
        (uploadLoop now url p ups s).2 ++ [CoordEvent.reconcileInvoked]) := by
  unfold afterDownload
  simp [upsertBy, lookupBy, hfs]

/-- The events of the post-download half: the reconcile alone, nothing, or
the destination-loop events (run on the entry store) plus the reconcile. -/
theorem afterDownload_events_cases (fs : String → Bool) (now : Nat)
    (url : String) (ups : List (String × UploadBehavior))
    (details0 : Option MediaItemDetails) (dn : Bool)
    (cache : List (String × String)) (s : StateManager) :
    (afterDownload fs now url ups details0 dn cache s).2 =
        [CoordEvent.reconcileInvoked] ∨
    (afterDownload fs now url ups details0 dn cache s).2 = [] ∨
    ∃ p, (afterDownload fs now url ups details0 dn cache s).2 =
      (uploadLoop now url p ups s).2 ++ [CoordEvent.reconcileInvoked] := by
  simp only [afterDownload]
  repeat' split
  all_goals first
    | exact Or.inl rfl
    | exact Or.inr (Or.inl rfl)
    | exact Or.inr (Or.inr ⟨_, rfl⟩)

/-- While a SUCCESS record for destination d is stored and the item row
exists, the post-download half emits no persist call and no upload
invocation for d. -/
theorem afterDownload_no_events_for (fs : String → Bool) (now : Nat)
    (url : String) (ups : List (String × UploadBehavior))
    (details0 : Option MediaItemDetails) (dn : Bool)
    (cache : List (String × String)) (d : String) (urec : UploadRow)
    (hsucc : urec.status = "SUCCESS") (s : StateManager) (hc : s.conn = true)
    (hr : lookupBy (url, d) s.upload_status = some urec)
    (hm : (lookupBy url s.media_items).isSome = true) :
    (∀ st oid, CoordEvent.persistUploadCall d st oid ∉
        (afterDownload fs now url ups details0 dn cache s).2) ∧
    (∀ q, CoordEvent.uploadInvoked d q ∉
        (afterDownload fs now url ups details0 dn cache s).2) := by
  rcases afterDownload_events_cases fs now url ups details0 dn cache s with
    h | h | ⟨p, h⟩ <;> rw [h]
  · constructor
    · intro st oid h2
      simp at h2
    · intro q h2
      simp at h2
  · constructor
    · intro st oid h2
      simp at h2
    · intro q h2
      simp at h2
  · have hloop := uploadLoop_no_events_for now url p d urec hsucc ups s hc hr hm
    constructor
    · intro st oid h2
      rcases List.mem_append.mp h2 with h3 | h3
      · exact hloop.1 st oid h3
      · simp at h3
    · intro q h2
      rcases List.mem_append.mp h2 with h3 | h3
      · exact hloop.2 q h3
      · simp at h3

/-- A full coordinator iteration leaves the upload_status table alone. -/
theorem processUrl_us (sm : StateManager) (fs : String → Bool) (now : Nat)
    (url : String) (ups : List (String × UploadBehavior))
    (extract : ExtractOutcome) (phase : DownloadPhase) :
    (processUrl sm fs now url ups extract phase).1.upload_status =
      sm.upload_status := by
  simp only [processUrl]
  split
  · simp [update_item_us]
  · split
    · simp [afterDownload_us]
    · split
      · simp [update_item_us, add_or_update_us, download_video_us]
      · simp [afterDownload_us, download_video_us, add_or_update_us]

/-- The events of one coordinator iteration: the reconcile alone (skip), the
engine plus the reconcile (failed download), or the post-download events —
optionally prefixed by the engine invocation — run from a store that has the
same connection flag and upload_status table as the initial one and keeps
every existing media row. -/
theorem processUrl_events_cases (sm : StateManager) (fs : String → Bool)
    (now : Nat) (url : String) (ups : List (String × UploadBehavior))
    (extract : ExtractOutcome) (phase : DownloadPhase) :
    (processUrl sm fs now url ups extract phase).2 =
        [CoordEvent.reconcileInvoked] ∨
    (processUrl sm fs now url ups extract phase).2 =
        [CoordEvent.engineInvoked, CoordEvent.reconcileInvoked] ∨
    ∃ s2 details0 dn cache,
      ((processUrl sm fs now url ups extract phase).2 =
          (afterDownload fs now url ups details0 dn cache s2).2 ∨
        (processUrl sm fs now url ups extract phase).2 =
          CoordEvent.engineInvoked ::
            (afterDownload fs now url ups details0 dn cache s2).2) ∧
      s2.conn = sm.conn ∧ s2.upload_status = sm.upload_status ∧
      ((lookupBy url sm.media_items).isSome = true →
        (lookupBy url s2.media_items).isSome = true) := by
  simp only [processUrl]
  split
  · exact Or.inl rfl
  · split
    · exact Or.inr (Or.inr ⟨sm, _, _, _, Or.inl rfl, rfl, rfl, fun h => h⟩)
    · split
      · exact Or.inr (Or.inl rfl)
      · refine Or.inr (Or.inr
          ⟨(download_video
              (add_or_update_media_item sm now url none none
                MediaStatus.pendingDownload none none none)
              [] now url extract phase).sm,
            _, _, _, Or.inr rfl, ?_, ?_, ?_⟩)
        · rw [download_video_conn, add_or_update_conn]
        · rw [download_video_us, add_or_update_us]
        · intro h
          refine (download_video_preserves _ _ _ _ _ _ url).2.2 ?_
          exact add_or_update_keeps_row sm now url url none none
            MediaStatus.pendingDownload none none none h

/-- C9: once an UploadRecord for (locator, destination) is stored SUCCESS (and
the item row exists), a coordinator pass leaves the record exactly as it was,
issues no `update_upload_status` call for that destination, and invokes no
upload for it: the per-destination step re-reads the fresh record and skips a
SUCCESS one. -/
theorem c9_success_is_terminal (sm : StateManager) (fs : String → Bool)
    (now : Nat) (url : String) (uploaders : List (String × UploadBehavior))
    (extract : ExtractOutcome) (phase : DownloadPhase) (d : String)
    (urec : UploadRow) (mrow : MediaItemRow) (hconn : sm.conn = true)
    (hmrow : lookupBy url sm.media_items = some mrow)
    (hrec : lookupBy (url, d) sm.upload_status = some urec)
    (hsucc : urec.status = "SUCCESS") :
    lookupBy (url, d)
        (processUrl sm fs now url uploaders extract phase).1.upload_status =
      some urec ∧
    (∀ st oid, CoordEvent.persistUploadCall d st oid ∉
        (processUrl sm fs now url uploaders extract phase).2) ∧
    (∀ q, CoordEvent.uploadInvoked d q ∉
        (processUrl sm fs now url uploaders extract phase).2) := by
  refine ⟨?_, ?_⟩
  · rw [processUrl_us]
    exact hrec
  · rcases processUrl_events_cases sm fs now url uploaders extract phase with
      h | h | ⟨s2, d0, dn, cache, hev, hc2, hus2, hrow2⟩
    · rw [h]
      constructor
      · intro st oid h2
        simp at h2
      · intro q h2
        simp at h2
    · rw [h]
      constructor
      · intro st oid h2
        simp at h2
      · intro q h2
        simp at h2
    · have hafter := afterDownload_no_events_for fs now url uploaders d0 dn
        cache d urec hsucc s2 (by rw [hc2]; exact hconn)
        (by rw [hus2]; exact hrec)
        (hrow2 (by rw [hmrow]; rfl))
      rcases hev with he | he <;> rw [he]
      · exact hafter
      · constructor
        · intro st oid h2
          rcases List.mem_cons.mp h2 with h3 | h3
          · exact CoordEvent.noConfusion h3
          · exact hafter.1 st oid h3
        · intro q h2
          rcases List.mem_cons.mp h2 with h3 | h3
          · exact CoordEvent.noConfusion h3
          · exact hafter.2 q h3

/-- C9 witness: a concrete pass over a store whose ("u","D") record is
SUCCESS leaves the record untouched and emits nothing for "D". -/
theorem c9_success_is_terminal_witness :
    lookupBy ("u", "D")
        (processUrl smC2w (fun _ => true) 1 "u" [("D", UploadBehavior.returnsId "x")]
          (ExtractOutcome.raisesMsg "boom") ⟨[], none⟩).1.upload_status =
      some (exURow "SUCCESS" 0) ∧
    (∀ st oid, CoordEvent.persistUploadCall "D" st oid ∉
        (processUrl smC2w (fun _ => true) 1 "u" [("D", UploadBehavior.returnsId "x")]
          (ExtractOutcome.raisesMsg "boom") ⟨[], none⟩).2) ∧
    (∀ q, CoordEvent.uploadInvoked "D" q ∉
        (processUrl smC2w (fun _ => true) 1 "u" [("D", UploadBehavior.returnsId "x")]
          (ExtractOutcome.raisesMsg "boom") ⟨[], none⟩).2) :=
  c9_success_is_terminal smC2w (fun _ => true) 1 "u"
    [("D", UploadBehavior.returnsId "x")] (ExtractOutcome.raisesMsg "boom")
    ⟨[], none⟩ "D" (exURow "SUCCESS" 0) (exRow "DOWNLOADED" (some "/f") 0)
    (by decide) (by decide) (by decide) (by decide)

/-- The destination loop never invokes the Download Engine. -/
theorem uploadLoop_no_engine (now : Nat) (url p : String) :
    ∀ (ups : List (String × UploadBehavior)) (s : StateManager),
      CoordEvent.engineInvoked ∉ (uploadLoop now url p ups s).2 := by
  intro ups
  induction ups with
  | nil =>
    intro s h
    simp [uploadLoop] at h
  | cons ub rest ih =>
    intro s h
    obtain ⟨uid, b⟩ := ub
    rcases List.mem_append.mp h with h2 | h2
    · rcases uploadLoopStep_events_cases now url p uid b s with hnil | ⟨tag, oid, heq⟩
      · rw [hnil] at h2
        simp at h2
      · rw [heq] at h2
        simp only [List.mem_cons, List.not_mem_nil, or_false] at h2
        rcases h2 with h3 | h3 | h3 <;> exact CoordEvent.noConfusion h3
    · exact ih _ h2

/-- C4 (amended): a locator whose stored status is COMPLETED with at least
one enabled destination, all of whose enabled destinations have SUCCESS
records, is skipped: the pass invokes neither the Download Engine nor any
destination upload.  (With zero enabled destinations the skip test is false
and the engine is invoked again; see the counterexample.) -/
theorem c4_completed_skip (sm : StateManager) (fs : String → Bool) (now : Nat)
    (url : String) (uploaders : List (String × UploadBehavior))
    (extract : ExtractOutcome) (phase : DownloadPhase) (mrow : MediaItemRow)
    (hconn : sm.conn = true) (hrow : lookupBy url sm.media_items = some mrow)
    (hst : mrow.status = "COMPLETED") (hups : uploaders ≠ [])
    (hall : allEnabledSuccess sm url (uploaders.map Prod.fst) = true) :
    CoordEvent.engineInvoked ∉
      (processUrl sm fs now url uploaders extract phase).2 ∧
    ∀ uid p, CoordEvent.uploadInvoked uid p ∉
      (processUrl sm fs now url uploaders extract phase).2 := by
  have hids : uploaders.map Prod.fst ≠ [] := by
    cases uploaders with
    | nil => exact absurd rfl hups
    | cons a l => simp
  have hdet := get_details_some sm url mrow hconn hrow
  have hproc := is_processed_eq_allEnabledSuccess sm url
    (uploaders.map Prod.fst) mrow hconn hrow hids
  have hC : MediaStatus.fromStr (some mrow.status) = some MediaStatus.completed :=
    (mFromStr_completed_iff mrow.status).mpr hst
  have hskip : processUrl sm fs now url uploaders extract phase =
      (update_item_status_if_all_uploads_done sm now url (uploaders.map Prod.fst),
        [CoordEvent.reconcileInvoked]) := by
    simp only [processUrl]
    rw [hdet]
    simp [hC, hproc, hall]
  rw [hskip]
  constructor
  · simp
  · intro uid p
    simp

/-- C4 witness: the concrete COMPLETED store skips when its one destination
is enabled. -/
theorem c4_completed_skip_witness :
    CoordEvent.engineInvoked ∉
      (processUrl smC4 (fun _ => true) 1 "u" [("D", UploadBehavior.returnsId "y")]
        (ExtractOutcome.raisesMsg "x") ⟨[], none⟩).2 ∧
    CoordEvent.uploadInvoked "D" "/f" ∉
      (processUrl smC4 (fun _ => true) 1 "u" [("D", UploadBehavior.returnsId "y")]
        (ExtractOutcome.raisesMsg "x") ⟨[], none⟩).2 :=
  ⟨(c4_completed_skip smC4 (fun _ => true) 1 "u"
      [("D", UploadBehavior.returnsId "y")] (ExtractOutcome.raisesMsg "x")
      ⟨[], none⟩ (exRow "COMPLETED" (some "/f") 0) (by decide) (by decide)
      (by decide) (by decide) (by decide)).1,
    (c4_completed_skip smC4 (fun _ => true) 1 "u"
      [("D", UploadBehavior.returnsId "y")] (ExtractOutcome.raisesMsg "x")
      ⟨[], none⟩ (exRow "COMPLETED" (some "/f") 0) (by decide) (by decide)
      (by decide) (by decide) (by decide)).2 "D" "/f"⟩

/-- C4 counterexample to the claim as stated: with zero enabled destinations
the same COMPLETED item is not skipped — `is_video_processed_for_uploaders`
returns false on an empty uploader list, so the skip test fails and the pass
invokes the Download Engine again. -/
theorem c4_completed_skip_counterexample :
    CoordEvent.engineInvoked ∈
      (processUrl smC4 (fun _ => true) 1 "u" []
        (ExtractOutcome.raisesMsg "x") ⟨[], none⟩).2 := by
  decide

/-- C5: when the recorded local_path exists on disk and the stored status is
DOWNLOADED or UPLOAD_PENDING, the pass equals the resumable path — the
destination loop on the recorded file followed by the reconcile — and the
Download Engine is not invoked. -/
theorem c5_resumable_no_engine (sm : StateManager) (fs : String → Bool)
    (now : Nat) (url : String) (uploaders : List (String × UploadBehavior))
    (extract : ExtractOutcome) (phase : DownloadPhase) (mrow : MediaItemRow)
    (p : String) (hconn : sm.conn = true)
    (hrow : lookupBy url sm.media_items = some mrow)
    (hlp : mrow.local_path = some p) (hpne : p.isEmpty = false)
    (hfs : fs p = true)
    (hst : mrow.status = "DOWNLOADED" ∨ mrow.status = "UPLOAD_PENDING") :
    processUrl sm fs now url uploaders extract phase =
      (update_item_status_if_all_uploads_done
          (uploadLoop now url p uploaders sm).1 now url (uploaders.map Prod.fst),
        (uploadLoop now url p uploaders sm).2 ++ [CoordEvent.reconcileInvoked]) ∧
    CoordEvent.engineInvoked ∉
      (processUrl sm fs now url uploaders extract phase).2 := by
  have hdet := get_details_some sm url mrow hconn hrow
  have hnc : MediaStatus.fromStr (some mrow.status) ≠ some MediaStatus.completed := by
    rcases hst with h | h <;> rw [h] <;> decide
  have hb : (decide (MediaStatus.fromStr (some mrow.status) =
        some MediaStatus.downloaded) ||
      decide (MediaStatus.fromStr (some mrow.status) =
        some MediaStatus.uploadPending)) = true := by
    rcases hst with h | h <;> rw [h] <;> decide
  have heq : processUrl sm fs now url uploaders extract phase =
      (update_item_status_if_all_uploads_done
          (uploadLoop now url p uploaders sm).1 now url (uploaders.map Prod.fst),
        (uploadLoop now url p uploaders sm).2 ++ [CoordEvent.reconcileInvoked]) := by
    simp only [processUrl]
    rw [hdet]
    simp only [resumableCheck, hlp, hnc, hpne, hfs, hb, Option.getD_some,
      Bool.not_false, Bool.true_and, Bool.and_true, Bool.and_self, decide_eq_true_eq,
      decide_False, Bool.false_and, Bool.and_false, if_false, ite_false]
    rw [afterDownload_cachehit fs now url uploaders _ false p sm hfs]
    simp [hnc]
  refine ⟨heq, ?_⟩
  rw [heq]
  intro h
  rcases List.mem_append.mp h with h2 | h2
  · exact uploadLoop_no_engine now url p uploaders sm h2
  · simp at h2

/-- C5 witness: the concrete DOWNLOADED store with its file on disk resumes
without invoking the engine. -/
theorem c5_resumable_no_engine_witness :
    processUrl smC2w (fun _ => true) 1 "u" [("D", UploadBehavior.returnsId "x")]
        (ExtractOutcome.raisesMsg "m") ⟨[], none⟩ =
      (update_item_status_if_all_uploads_done
          (uploadLoop 1 "u" "/f" [("D", UploadBehavior.returnsId "x")] smC2w).1
          1 "u" ["D"],
        (uploadLoop 1 "u" "/f" [("D", UploadBehavior.returnsId "x")] smC2w).2 ++
          [CoordEvent.reconcileInvoked]) ∧
    CoordEvent.engineInvoked ∉
      (processUrl smC2w (fun _ => true) 1 "u" [("D", UploadBehavior.returnsId "x")]
        (ExtractOutcome.raisesMsg "m") ⟨[], none⟩).2 :=
  c5_resumable_no_engine smC2w (fun _ => true) 1 "u"
    [("D", UploadBehavior.returnsId "x")] (ExtractOutcome.raisesMsg "m")
    ⟨[], none⟩ (exRow "DOWNLOADED" (some "/f") 0) "/f" (by decide) (by decide)
    (by decide) (by decide) (by decide) (Or.inl (by decide))

/-- C7: in the concrete two-destination pass, the coordinator calls
`update_upload_status` to persist FAILED with the error tag for "D1"
(first conjunct) and still attempts and completes "D2" (failure isolation,
second and third conjuncts); but because `update_upload_status` always dies
on its sqlite statement, the store afterwards holds no record for ("u","D1")
at all (and none for ("u","D2")) — nothing was persisted. -/
theorem c7_failure_isolation_code_bug :
    CoordEvent.persistUploadCall "D1" "FAILED" (some "ERROR: UploadError") ∈ c7run.2 ∧
    CoordEvent.uploadInvoked "D2" "/f" ∈ c7run.2 ∧
    CoordEvent.persistUploadCall "D2" "SUCCESS" (some "id2") ∈ c7run.2 ∧
    lookupBy ("u", "D1") c7run.1.upload_status = none ∧
    lookupBy ("u", "D2") c7run.1.upload_status = none := by
  refine ⟨?_, ?_, ?_, ?_, ?_⟩ <;> decide

/-- C8: in one engine attempt, any terminal event the engine reports comes
after the DOWNLOADING status write: whenever index i of the attempt trace is
a terminal report, index 0 is the write of DOWNLOADING (the
PendingDownload → Downloading transition made by the coordinator before the
download runs) and i is positive. -/
theorem c8_downloading_before_terminal (sm : StateManager)
    (cache : List (String × String)) (now : Nat) (url : String)
    (extract : ExtractOutcome) (phase : DownloadPhase) (i : Nat) (ev : HookEvent)
    (h : (download_video sm cache now url extract phase).events[i]? =
      some (DlEvent.terminalReport ev)) :
    0 < i ∧
    (download_video sm cache now url extract phase).events[0]? =
      some (DlEvent.writeStatus "DOWNLOADING") := by
  cases extract with
  | raisesMsg msg => simp [download_video] at h
  | noInfo => simp [download_video] at h
  | okInfo title ytid =>
    have hev : (download_video sm cache now url
        (ExtractOutcome.okInfo title ytid) phase).events =
        DlEvent.writeStatus "DOWNLOADING" ::
          phase.hooks.map DlEvent.terminalReport := by
      cases hp : phase.raisesMsg <;> simp [download_video, hp]
    rw [hev] at h ⊢
    cases i with
    | zero =>
      rw [List.getElem?_cons_zero] at h
      exact absurd h (by simp)
    | succ n =>
      exact ⟨Nat.succ_pos n, by rw [List.getElem?_cons_zero]⟩

/-- C8 witness: a concrete attempt with one finished hook event has the
DOWNLOADING write at index 0 and the terminal report after it. -/
theorem c8_downloading_before_terminal_witness :
    0 < 1 ∧
    (download_video smEmpty [] 1 "u"
        (ExtractOutcome.okInfo (some "T") (some "y"))
        ⟨[HookEvent.finished (some "u") "/f" (some "T") (some "y")], none⟩).events[0]? =
      some (DlEvent.writeStatus "DOWNLOADING") :=
  c8_downloading_before_terminal smEmpty [] 1 "u"
    (ExtractOutcome.okInfo (some "T") (some "y"))
    ⟨[HookEvent.finished (some "u") "/f" (some "T") (some "y")], none⟩ 1
    (HookEvent.finished (some "u") "/f" (some "T") (some "y")) (by decide)
